import Mathlib

/-!
# cpp3ds `Shader` (src/emu3ds/Graphics/Shader.cpp)

A shallow embedding of the shader-program wrapper.  The C++ object is a record
(`Shader`), every member function is a pure function that takes the object and the
outside world (`World`) and returns the new ones.  The graphics driver is an
external collaborator: it is a parameter (`Driver`) whose answers may depend on
the whole transcript of the calls made so far, and every driver call is appended
to that transcript together with the value the driver returned.

Conventions
* a `float` value is carried as the rational number it holds (`ℚ`); the one float
  operation of the source, the division `color.r / 255.f`, is `floatDiv`, which rounds
  the quotient to the nearest 32-bit float.
* `glCheck(x)` is `x` (the release expansion of the macro).
* `unsigned int` / `GLuint` / `GLhandleARB` are `Nat`, `int` / `GLint` are `Int`;
  the two implicit conversions of `setParameter` are `toGLint` and `toGLuint`.
* `std::map` is an association list with unique keys; the source never iterates
  over its maps, so the order of the entries is not observable.
-/

set_option linter.unusedVariables false
set_option linter.dupNamespace false

namespace cpp3ds

/-! ## The driver -/

/-- Symbolic constants of the GL headers that `Shader.cpp` uses. -/
inductive GLenum where
  | GL_CURRENT_PROGRAM
  | GL_MAX_COMBINED_TEXTURE_IMAGE_UNITS
  | GL_VERTEX_SHADER
  | GL_OBJECT_COMPILE_STATUS_ARB
  | GL_OBJECT_LINK_STATUS_ARB
  | GL_VERTEX_SHADER_BINARY
  | GL_GEOMETRY_SHADER_BINARY
  deriving DecidableEq, Repr

/-- The value of `GL_FALSE`. -/
def GL_FALSE : Int := 0

/-- One driver call, with its arguments and (for a query) the value returned. -/
inductive GLCall where
  | getIntegerv (pname : GLenum) (value : Int)
  | useProgram (program : Nat)
  | getUniformLocation (program : Nat) (name : String) (location : Int)
  | uniform1f (location : Int) (x : ℚ)
  | uniform2f (location : Int) (x y : ℚ)
  | uniform3f (location : Int) (x y z : ℚ)
  | uniform4f (location : Int) (x y z w : ℚ)
  | uniformMatrix4fv (location : Int) (count : Nat) (transpose : Bool) (value : List ℚ)
  | deleteProgram (program : Nat)
  | deleteObject (obj : Nat)
  | createProgramObject (result : Nat)
  | createShaderObject (shaderType : GLenum) (result : Nat)
  | shaderSource (shader : Nat) (source : String)
  | compileShader (shader : Nat)
  | getObjectParameteriv (obj : Nat) (pname : GLenum) (value : Int)
  | getInfoLog (obj : Nat) (maxLength : Nat) (log : String)
  | attachObject (program shader : Nat)
  | linkProgram (program : Nat)
  | flush
  | createProgram (result : Nat)
  | programBinary (program : Nat) (binaryFormat : GLenum) (data : List Char) (size : Int)
  deriving DecidableEq

/-- The graphics driver.  Every answer is a function of the transcript of the calls
made before the query, so a driver may answer the same query differently at
different times. -/
structure Driver where
  /-- Program that is current before the first `glUseProgram` of the transcript. -/
  initialProgram : Nat
  /-- Answer to `glGetIntegerv(GL_MAX_COMBINED_TEXTURE_IMAGE_UNITS)`. -/
  maxCombinedTextureImageUnits : List GLCall → Int
  /-- Answer to `glGetUniformLocation(program, name)`. -/
  uniformLocation : List GLCall → Nat → String → Int
  /-- Object returned by `glCreateProgramObjectARB()`. -/
  createProgramObject : List GLCall → Nat
  /-- Object returned by `glCreateShaderObjectARB(type)`. -/
  createShaderObject : List GLCall → GLenum → Nat
  /-- Answer to `glGetObjectParameterivARB(obj, pname)`. -/
  objectParameter : List GLCall → Nat → GLenum → Int
  /-- Text of the information log of an object. -/
  infoLog : List GLCall → Nat → String
  /-- Object returned by `glCreateProgram()`. -/
  createProgram : List GLCall → Nat

/-- The outside world of a `Shader`. -/
structure World where
  /-- Transcript of the driver calls, oldest first. -/
  calls : List GLCall
  /-- Lines written to `err()`, oldest first. -/
  err : List String
  /-- Receivers of the `bindTextures()` invocations, oldest first: the program handle
  of the receiving object, `none` for a null pointer. -/
  bindTexturesLog : List (Option Nat)
  deriving DecidableEq

/-- Append a driver call to the transcript. -/
def World.call (w : World) (c : GLCall) : World :=
  { w with calls := w.calls ++ [c] }

/-- One statement `err() << ... << std::endl`. -/
def World.report (w : World) (msg : String) : World :=
  { w with err := w.err ++ [msg] }

/-- Conversion of an `unsigned int` to a 32-bit `GLint`. -/
def toGLint (n : Nat) : Int :=
  if n % 4294967296 < 2147483648 then ((n % 4294967296 : Nat) : Int)
  else ((n % 4294967296 : Nat) : Int) - 4294967296

/-- Conversion of a `GLint` to a 32-bit `GLuint`. -/
def toGLuint (i : Int) : Nat :=
  (i % 4294967296).toNat

/-- Conversion `static_cast<std::size_t>` of a `GLint` (64-bit `std::size_t`). -/
def toSizeT (i : Int) : Nat :=
  (i % 18446744073709551616).toNat

/-- The integer nearest to `n / d`, the even one of the two when `n / d` lies half way
between them. -/
def halfEven (n d : Nat) : Nat :=
  if 2 * (n % d) < d then n / d
  else if d < 2 * (n % d) then n / d + 1
  else if (n / d) % 2 = 0 then n / d
  else n / d + 1

/-- The least `k`, at most `fuel`, for which `n * 2 ^ k / d` is at least `2 ^ 23`. -/
def upShift : Nat → Nat → Nat → Nat
  | 0, _, _ => 0
  | fuel + 1, n, d => if d * 2 ^ 23 ≤ n then 0 else 1 + upShift fuel (2 * n) d

/-- The least `k`, at most `fuel`, for which `n / (d * 2 ^ k)` is below `2 ^ 24`. -/
def downShift : Nat → Nat → Nat → Nat
  | 0, _, _ => 0
  | fuel + 1, n, d => if n < d * 2 ^ 24 then 0 else 1 + downShift fuel n (2 * d)

/-- The division of two `float` values that hold the natural numbers `n` and `d` (`d`
not 0), as the 32-bit float it yields: the quotient is rounded to the nearest number
with a significand of 24 bits (exponent at least -126, so with a step of at least
`2 ^ -149`), to the one with an even significand when it lies half way.  Quotients
that round to `2 ^ 128` or more, which a float holds as infinity, are outside the
model. -/
def floatDiv (n d : Nat) : ℚ :=
  if n < d * 2 ^ 24 then
    ((halfEven (n * 2 ^ upShift 149 n d) d : Nat) : ℚ) / ((2 ^ upShift 149 n d : Nat) : ℚ)
  else
    ((halfEven n (d * 2 ^ downShift 104 n d) : Nat) : ℚ) * ((2 ^ downShift 104 n d : Nat) : ℚ)

/-- Modelled from the spec: the driver's current program (the driver is not part of
the repository; the spec lists "current-program get/set" in its surface).  It is the
argument of the last `glUseProgram` of the transcript, `initialProgram` before the
first one. -/
def currentProgram (d : Driver) (calls : List GLCall) : Nat :=
  calls.foldl
    (fun current c =>
      match c with
      | GLCall.useProgram p => p
      | _ => current)
    d.initialProgram

/-- Call `glGetIntegerv(pname, &value)`. -/
def glGetIntegerv (d : Driver) (pname : GLenum) (w : World) : Int × World :=
  let value : Int :=
    match pname with
    | GLenum.GL_CURRENT_PROGRAM => toGLint (currentProgram d w.calls)
    | GLenum.GL_MAX_COMBINED_TEXTURE_IMAGE_UNITS => d.maxCombinedTextureImageUnits w.calls
    | _ => 0
  (value, w.call (GLCall.getIntegerv pname value))

/-- Call `glUseProgram(program)`. -/
def glUseProgram (program : Nat) (w : World) : World :=
  w.call (GLCall.useProgram program)

/-- Call `glGetUniformLocation(program, name)`. -/
def glGetUniformLocation (d : Driver) (program : Nat) (name : String) (w : World) :
    Int × World :=
  let location := d.uniformLocation w.calls program name
  (location, w.call (GLCall.getUniformLocation program name location))

/-- Call `glCreateProgramObjectARB()`. -/
def glCreateProgramObjectARB (d : Driver) (w : World) : Nat × World :=
  let result := d.createProgramObject w.calls
  (result, w.call (GLCall.createProgramObject result))

/-- Call `glCreateShaderObjectARB(type)`. -/
def glCreateShaderObjectARB (d : Driver) (shaderType : GLenum) (w : World) : Nat × World :=
  let result := d.createShaderObject w.calls shaderType
  (result, w.call (GLCall.createShaderObject shaderType result))

/-- Call `glGetObjectParameterivARB(obj, pname, &value)`. -/
def glGetObjectParameterivARB (d : Driver) (obj : Nat) (pname : GLenum) (w : World) :
    Int × World :=
  let value := d.objectParameter w.calls obj pname
  (value, w.call (GLCall.getObjectParameteriv obj pname value))

/-- The C string stored in a `char` array: the characters before the first NUL. -/
def cString (buffer : List Char) : String :=
  String.mk (buffer.takeWhile (fun c => c ≠ Char.ofNat 0))

/-- Call `glGetInfoLogARB(obj, maxLength, 0, log)`: at most `maxLength - 1` characters
and a terminating NUL are written to `log`; the result is `log` read as a C string. -/
def glGetInfoLogARB (d : Driver) (obj : Nat) (maxLength : Nat) (w : World) : String × World :=
  let log := cString ((d.infoLog w.calls obj).data.take (maxLength - 1))
  (log, w.call (GLCall.getInfoLog obj maxLength log))

/-- Call `glCreateProgram()`. -/
def glCreateProgram (d : Driver) (w : World) : Nat × World :=
  let result := d.createProgram w.calls
  (result, w.call (GLCall.createProgram result))

/-- Call `glDeleteObjectARB(obj)`. -/
def glDeleteObjectARB (obj : Nat) (w : World) : World :=
  w.call (GLCall.deleteObject obj)

/-- Call `glDeleteProgram(program)`. -/
def glDeleteProgram (program : Nat) (w : World) : World :=
  w.call (GLCall.deleteProgram program)

/-- Call `glShaderSource(shader, 1, &source, NULL)`. -/
def glShaderSource (shader : Nat) (source : String) (w : World) : World :=
  w.call (GLCall.shaderSource shader source)

/-- Call `glCompileShader(shader)`. -/
def glCompileShader (shader : Nat) (w : World) : World :=
  w.call (GLCall.compileShader shader)

/-- Call `glAttachObjectARB(program, shader)`. -/
def glAttachObjectARB (program shader : Nat) (w : World) : World :=
  w.call (GLCall.attachObject program shader)

/-- Call `glLinkProgram(program)`. -/
def glLinkProgram (program : Nat) (w : World) : World :=
  w.call (GLCall.linkProgram program)

/-- Call `glFlush()`. -/
def glFlush (w : World) : World :=
  w.call GLCall.flush

/-- Call `glProgramBinary(program, format, data, size)`. -/
def glProgramBinary (program : Nat) (binaryFormat : GLenum) (data : List Char) (size : Int)
    (w : World) : World :=
  w.call (GLCall.programBinary program binaryFormat data size)

/-- Call `glUniform1f(location, x)`. -/
def glUniform1f (location : Int) (x : ℚ) (w : World) : World :=
  w.call (GLCall.uniform1f location x)

/-- Call `glUniform2f(location, x, y)`. -/
def glUniform2f (location : Int) (x y : ℚ) (w : World) : World :=
  w.call (GLCall.uniform2f location x y)

/-- Call `glUniform3f(location, x, y, z)`. -/
def glUniform3f (location : Int) (x y z : ℚ) (w : World) : World :=
  w.call (GLCall.uniform3f location x y z)

/-- Call `glUniform4f(location, x, y, z, w)`. -/
def glUniform4f (location : Int) (x y z w4 : ℚ) (w : World) : World :=
  w.call (GLCall.uniform4f location x y z w4)

/-- Call `glUniformMatrix4fv(location, count, transpose, value)`. -/
def glUniformMatrix4fv (location : Int) (count : Nat) (transpose : Bool) (value : List ℚ)
    (w : World) : World :=
  w.call (GLCall.uniformMatrix4fv location count transpose value)

/-! ## The types the shader receives -/

/-- Modelled from the spec: `Color` (Color.hpp is absent), four 8-bit channels. -/
structure Color where
  r : Fin 256
  g : Fin 256
  b : Fin 256
  a : Fin 256
  deriving DecidableEq

/-- Modelled from the spec: the constant `Color::Red` (Color.cpp is absent). -/
def Color.Red : Color := { r := 255, g := 0, b := 0, a := 255 }

/-- Modelled from the spec: `Vector2f` (Vector2.hpp is absent). -/
structure Vector2f where
  x : ℚ
  y : ℚ
  deriving DecidableEq

/-- Modelled from the spec: `Vector3f` (Vector3.hpp is absent). -/
structure Vector3f where
  x : ℚ
  y : ℚ
  z : ℚ
  deriving DecidableEq

/-- Modelled from the spec: `Transform` (Transform.hpp is absent); `getMatrix` is the
4x4 matrix as its 16 elements. -/
structure Transform where
  getMatrix : List ℚ
  deriving DecidableEq

/-- Modelled from the spec: a `Texture` object (Texture.hpp is absent), known to the
shader by its address only. -/
structure Texture where
  address : Nat
  deriving DecidableEq

/-- Modelled from the spec: `InputStream` (InputStream.hpp is absent). -/
structure InputStream where
  data : List Char
  deriving DecidableEq

/-- Modelled from the spec: the enumeration `Shader::Type` (Shader.hpp is absent);
the source names `Vertex` and `Geometry`, the spec adds the fragment stage. -/
inductive ShaderType where
  | Vertex
  | Fragment
  | Geometry
  deriving DecidableEq

/-- The files that can be opened, by name, with their content. -/
abbrev FileSystem := String → Option (List Char)

/-- The function `getFileContents(filename, buffer)`: result and new buffer. -/
def getFileContents (files : FileSystem) (filename : String) (buffer : List Char) :
    Bool × List Char :=
  match files filename with
  | some content =>
    let size := content.length
    let buffer1 := if size > 0 then content else buffer
    (true, buffer1 ++ [Char.ofNat 0])
  | none => (false, buffer)

/-! ## The shader -/

/-- The data members of `Shader`. -/
structure Shader where
  m_shaderProgram : Nat
  m_currentTexture : Int
  m_textures : List (Int × Texture)
  m_params : List (String × Int)
  m_shaderData : List Char
  deriving DecidableEq

/-- The character `"`. -/
def dquote : String := String.singleton (Char.ofNat 34)

/-- The line break written by `std::endl` inside a message. -/
def endl : String := String.singleton (Char.ofNat 10)

namespace Shader

/-- The constructor `Shader::Shader()`. -/
def Shader : Shader :=
  { m_shaderProgram := 0, m_currentTexture := -1, m_textures := [], m_params := [],
    m_shaderData := [] }

/-- The destructor `Shader::~Shader()`. -/
def destructor (s : cpp3ds.Shader) (w : World) : World :=
  if s.m_shaderProgram ≠ 0 then glDeleteProgram s.m_shaderProgram w else w

/-- The function `Shader::isAvailable()`. -/
def isAvailable : Bool := true

/-- The function `Shader::getNativeHandle()`. -/
def getNativeHandle (s : cpp3ds.Shader) : Nat := s.m_shaderProgram

/-- The function `Shader::bindTextures()`: its body is empty; the invocation is
recorded with its receiver. -/
def bindTextures (receiver : Option cpp3ds.Shader) (w : World) : World :=
  { w with bindTexturesLog := w.bindTexturesLog ++ [receiver.map (fun r => r.m_shaderProgram)] }

/-- The function `Shader::getParamLocation(name)`. -/
def getParamLocation (d : Driver) (name : String) (s : cpp3ds.Shader) (w : World) :
    Int × cpp3ds.Shader × World :=
  match s.m_params.lookup name with
  | some location => (location, s, w)
  | none =>
    let q := glGetUniformLocation d s.m_shaderProgram name w
    let location := q.1
    let s1 := { s with m_params := (name, location) :: s.m_params }
    let w1 :=
      if location = -1 then
        q.2.report ("Parameter " ++ dquote ++ name ++ dquote ++ " not found in shader")
      else q.2
    (location, s1, w1)

/-- The function `Shader::setParameter(name, float x)`. -/
def setParameter_float (d : Driver) (name : String) (x : ℚ) (s : cpp3ds.Shader)
    (w : World) : cpp3ds.Shader × World :=
  if s.m_shaderProgram ≠ 0 then
    -- Enable program
    let program := glGetIntegerv d GLenum.GL_CURRENT_PROGRAM w
    let w1 := glUseProgram s.m_shaderProgram program.2
    -- Get parameter location and assign it new values
    let location := getParamLocation d name s w1
    let w2 :=
      if location.1 ≠ -1 then glUniform1f location.1 x location.2.2
      else location.2.2
    -- Disable program
    (location.2.1, glUseProgram (toGLuint program.1) w2)
  else (s, w)

/-- The function `Shader::setParameter(name, float x, float y)`. -/
def setParameter_float2 (d : Driver) (name : String) (x y : ℚ) (s : cpp3ds.Shader)
    (w : World) : cpp3ds.Shader × World :=
  if s.m_shaderProgram ≠ 0 then
    -- Enable program
    let program := glGetIntegerv d GLenum.GL_CURRENT_PROGRAM w
    let w1 := glUseProgram s.m_shaderProgram program.2
    -- Get parameter location and assign it new values
    let location := getParamLocation d name s w1
    let w2 :=
      if location.1 ≠ -1 then glUniform2f location.1 x y location.2.2
      else location.2.2
    -- Disable program
    (location.2.1, glUseProgram (toGLuint program.1) w2)
  else (s, w)

/-- The function `Shader::setParameter(name, float x, float y, float z)`. -/
def setParameter_float3 (d : Driver) (name : String) (x y z : ℚ) (s : cpp3ds.Shader)
    (w : World) : cpp3ds.Shader × World :=
  if s.m_shaderProgram ≠ 0 then
    -- Enable program
    let program := glGetIntegerv d GLenum.GL_CURRENT_PROGRAM w
    let w1 := glUseProgram s.m_shaderProgram program.2
    -- Get parameter location and assign it new values
    let location := getParamLocation d name s w1
    let w2 :=
      if location.1 ≠ -1 then glUniform3f location.1 x y z location.2.2
      else location.2.2
    -- Disable program
    (location.2.1, glUseProgram (toGLuint program.1) w2)
  else (s, w)

/-- The function `Shader::setParameter(name, float x, float y, float z, float w)`. -/
def setParameter_float4 (d : Driver) (name : String) (x y z w4 : ℚ) (s : cpp3ds.Shader)
    (w : World) : cpp3ds.Shader × World :=
  if s.m_shaderProgram ≠ 0 then
    -- Enable program
    let program := glGetIntegerv d GLenum.GL_CURRENT_PROGRAM w
    let w1 := glUseProgram s.m_shaderProgram program.2
    -- Get parameter location and assign it new values
    let location := getParamLocation d name s w1
    let w2 :=
      if location.1 ≠ -1 then glUniform4f location.1 x y z w4 location.2.2
      else location.2.2
    -- Disable program
    (location.2.1, glUseProgram (toGLuint program.1) w2)
  else (s, w)

/-- The function `Shader::setParameter(name, const Vector2f& v)`. -/
def setParameter_Vector2f (d : Driver) (name : String) (v : Vector2f) (s : cpp3ds.Shader)
    (w : World) : cpp3ds.Shader × World :=
  setParameter_float2 d name v.x v.y s w

/-- The function `Shader::setParameter(name, const Vector3f& v)`. -/
def setParameter_Vector3f (d : Driver) (name : String) (v : Vector3f) (s : cpp3ds.Shader)
    (w : World) : cpp3ds.Shader × World :=
  setParameter_float3 d name v.x v.y v.z s w

/-- The function `Shader::setParameter(name, const Color& color)`; each channel is
converted to `float` (exactly) and divided by `255.f` in `float`. -/
def setParameter_Color (d : Driver) (name : String) (color : Color) (s : cpp3ds.Shader)
    (w : World) : cpp3ds.Shader × World :=
  setParameter_float4 d name (floatDiv color.r.val 255) (floatDiv color.g.val 255)
    (floatDiv color.b.val 255) (floatDiv color.a.val 255) s w

/-- The function `Shader::setParameter(name, const Transform& transform)`. -/
def setParameter_Transform (d : Driver) (name : String) (transform : Transform) (s : cpp3ds.Shader)
    (w : World) : cpp3ds.Shader × World :=
  if s.m_shaderProgram ≠ 0 then
    -- Enable program
    let program := glGetIntegerv d GLenum.GL_CURRENT_PROGRAM w
    let w1 := glUseProgram s.m_shaderProgram program.2
    -- Get parameter location and assign it new values
    let location := getParamLocation d name s w1
    let w2 :=
      if location.1 ≠ -1 then glUniformMatrix4fv location.1 1 false transform.getMatrix location.2.2
      else location.2.2
    -- Disable program
    (location.2.1, glUseProgram (toGLuint program.1) w2)
  else (s, w)

/-- The function `Shader::setParameter(name, const Texture& texture)`. -/
def setParameter_Texture (d : Driver) (name : String) (texture : Texture) (s : cpp3ds.Shader)
    (w : World) : cpp3ds.Shader × World :=
  if s.m_shaderProgram ≠ 0 then
    -- Find the location of the variable in the shader
    let location := getParamLocation d name s w
    let s1 := location.2.1
    let w1 := location.2.2
    if location.1 ≠ -1 then
      -- Store the location -> texture mapping
      match s1.m_textures.lookup location.1 with
      | none =>
        -- New entry, make sure there are enough texture units
        let maxUnits := glGetIntegerv d GLenum.GL_MAX_COMBINED_TEXTURE_IMAGE_UNITS w1
        if s1.m_textures.length + 1 ≥ toSizeT maxUnits.1 then
          (s1, maxUnits.2.report ("Impossible to use texture " ++ dquote ++ name ++ dquote ++
            " for shader: all available texture units are used"))
        else
          ({ s1 with m_textures := (location.1, texture) :: s1.m_textures }, maxUnits.2)
      | some _ =>
        -- Location already used, just replace the texture
        ({ s1 with m_textures :=
            s1.m_textures.map (fun e => if e.1 = location.1 then (e.1, texture) else e) }, w1)
    else (s1, w1)
  else (s, w)

/-- The function `Shader::setParameter(name, CurrentTextureType)`. -/
def setParameter_CurrentTexture (d : Driver) (name : String) (s : cpp3ds.Shader) (w : World) :
    cpp3ds.Shader × World :=
  if s.m_shaderProgram ≠ 0 then
    -- Find the location of the variable in the shader
    let location := getParamLocation d name s w
    ({ location.2.1 with m_currentTexture := location.1 }, location.2.2)
  else (s, w)

/-- The function `Shader::bind(const Shader* shader)`; `Default` is the static object
`Shader::Default`, `shader` is `none` for a null pointer. -/
def bind (EMULATION : Bool) (Default : cpp3ds.Shader) (shader : Option cpp3ds.Shader)
    (w : World) : World :=
  -- Make sure that we can use shaders
  if !isAvailable then
    w.report ("Failed to bind or unbind shader: your system doesn't support shaders " ++
      "(you should test Shader::isAvailable() before trying to use the Shader class)")
  else
    match shader with
    | some sh =>
      if sh.m_shaderProgram ≠ 0 then
        -- Enable the program, bind the textures
        bindTextures (some sh) (glUseProgram sh.m_shaderProgram w)
      else if EMULATION then
        -- Bind no shader
        glUseProgram 0 w
      else
        -- Bind default shader, bind the textures
        bindTextures (some sh) (glUseProgram Default.m_shaderProgram w)
    | none =>
      if EMULATION then
        -- Bind no shader
        glUseProgram 0 w
      else
        -- Bind default shader, bind the textures
        bindTextures none (glUseProgram Default.m_shaderProgram w)

/-- The function `Shader::compile(vertexShaderCode, fragmentShaderCode)`; a code is
`none` for a null pointer. -/
def compile (EMULATION : Bool) (d : Driver) (vertexShaderCode fragmentShaderCode : Option String)
    (s : cpp3ds.Shader) (w : World) : Bool × cpp3ds.Shader × World :=
  -- First make sure that we can use shaders
  if !isAvailable then
    (false, s, w.report ("Failed to create a shader: your system doesn't support shaders " ++
      "(you should test Shader::isAvailable() before trying to use the Shader class)"))
  else if EMULATION then
    -- Destroy the shader if it was already created
    let w1 := if s.m_shaderProgram ≠ 0 then glDeleteObjectARB s.m_shaderProgram w else w
    -- Reset the internal state
    let s1 : cpp3ds.Shader :=
      { s with m_shaderProgram := 0, m_currentTexture := -1, m_textures := [], m_params := [] }
    -- Create the program
    let shaderProgram := glCreateProgramObjectARB d w1
    -- Create the vertex shader if needed (`Except.error` is the early return)
    let vertexBlock : Except World World :=
      match vertexShaderCode with
      | some code =>
        -- Create and compile the shader
        let vertexShader := glCreateShaderObjectARB d GLenum.GL_VERTEX_SHADER shaderProgram.2
        let w2 := glCompileShader vertexShader.1 (glShaderSource vertexShader.1 code vertexShader.2)
        -- Check the compile log
        let success :=
          glGetObjectParameterivARB d vertexShader.1 GLenum.GL_OBJECT_COMPILE_STATUS_ARB w2
        if success.1 = GL_FALSE then
          let log := glGetInfoLogARB d vertexShader.1 1024 success.2
          let w3 := log.2.report ("Failed to compile vertex shader:" ++ endl ++ log.1)
          Except.error (glDeleteObjectARB shaderProgram.1 (glDeleteObjectARB vertexShader.1 w3))
        else
          -- Attach the shader to the program, and delete it (not needed anymore)
          Except.ok (glDeleteObjectARB vertexShader.1
            (glAttachObjectARB shaderProgram.1 vertexShader.1 success.2))
      | none => Except.ok shaderProgram.2
    match vertexBlock with
    | Except.error wFail => (false, s1, wFail)
    | Except.ok w4 =>
      -- Link the program
      let w5 := glLinkProgram shaderProgram.1 w4
      -- Check the link log
      let success :=
        glGetObjectParameterivARB d shaderProgram.1 GLenum.GL_OBJECT_LINK_STATUS_ARB w5
      if success.1 = GL_FALSE then
        let log := glGetInfoLogARB d shaderProgram.1 1024 success.2
        let w6 := log.2.report ("Failed to link shader:" ++ endl ++ log.1)
        (false, s1, glDeleteObjectARB shaderProgram.1 w6)
      else
        -- Force an OpenGL flush
        (true, { s1 with m_shaderProgram := shaderProgram.1 }, glFlush success.2)
  else (false, s, w)

/-- The function `Shader::loadBinary(data, size, type)`; `size` is a `Uint32`, handed to
the driver as `(GLsizei)size`. -/
def loadBinary (EMULATION : Bool) (d : Driver) (data : List Char) (size : Nat)
    (type : ShaderType) (s : cpp3ds.Shader) (w : World) : Bool × cpp3ds.Shader × World :=
  if !EMULATION then
    let created := glCreateProgram d w
    let handle := if s.m_shaderProgram = 0 then created.1 else s.m_shaderProgram
    let w1 := if s.m_shaderProgram = 0 then created.2 else w
    -- Reset the internal state
    let s1 : cpp3ds.Shader :=
      { s with m_shaderProgram := handle, m_currentTexture := -1, m_textures := [],
               m_params := [] }
    let w2 :=
      if type = ShaderType.Vertex then
        glProgramBinary handle GLenum.GL_VERTEX_SHADER_BINARY data (toGLint size) w1
      else if type = ShaderType.Geometry then
        glProgramBinary handle GLenum.GL_GEOMETRY_SHADER_BINARY data (toGLint size) w1
      else w1
    (true, s1, w2)
  else (true, s, w)

/-- The function `Shader::loadFromFile(filename, type)`. -/
def loadFromFile (EMULATION : Bool) (d : Driver) (files : FileSystem) (filename : String)
    (type : ShaderType) (s : cpp3ds.Shader) (w : World) : Bool × cpp3ds.Shader × World :=
  let shaderfile :=
    if EMULATION then "../res/glsl/" ++ filename ++ ".glsl" else filename ++ ".shbin"
  -- Read the file
  let read := getFileContents files shaderfile s.m_shaderData
  let s1 := { s with m_shaderData := read.2 }
  if !read.1 then
    (false, s1, w.report ("Failed to open shader file " ++ dquote ++ shaderfile ++ dquote))
  else if EMULATION then
    -- Compile the shader program
    if type = ShaderType.Vertex then compile EMULATION d (some (cString s1.m_shaderData)) none s1 w
    else compile EMULATION d none (some (cString s1.m_shaderData)) s1 w
  else
    loadBinary EMULATION d s1.m_shaderData (s1.m_shaderData.length % 4294967296) type s1 w

/-- The function `Shader::loadFromFile(vertexShaderFilename, fragmentShaderFilename)`. -/
def loadFromFile_2 (vertexShaderFilename fragmentShaderFilename : String) (s : cpp3ds.Shader)
    (w : World) : Bool × cpp3ds.Shader × World :=
  (false, s, w)

/-- The function `Shader::loadFromMemory(shader, type)`. -/
def loadFromMemory (shader : String) (type : ShaderType) (s : cpp3ds.Shader) (w : World) :
    Bool × cpp3ds.Shader × World :=
  (false, s, w)

/-- The function `Shader::loadFromMemory(vertexShader, fragmentShader)`. -/
def loadFromMemory_2 (vertexShader fragmentShader : String) (s : cpp3ds.Shader) (w : World) :
    Bool × cpp3ds.Shader × World :=
  (false, s, w)

/-- The function `Shader::loadFromStream(stream, type)`. -/
def loadFromStream (stream : InputStream) (type : ShaderType) (s : cpp3ds.Shader) (w : World) :
    Bool × cpp3ds.Shader × World :=
  (false, s, w)

/-- The function `Shader::loadFromStream(vertexShaderStream, fragmentShaderStream)`. -/
def loadFromStream_2 (vertexShaderStream fragmentShaderStream : InputStream)
    (s : cpp3ds.Shader) (w : World) : Bool × cpp3ds.Shader × World :=
  (false, s, w)

/-- The argument of a `setParameter` call: one constructor for each overload. -/
inductive Value where
  | float (x : ℚ)
  | float2 (x y : ℚ)
  | float3 (x y z : ℚ)
  | float4 (x y z w : ℚ)
  | Vector2f (v : cpp3ds.Vector2f)
  | Vector3f (v : cpp3ds.Vector3f)
  | Color (color : cpp3ds.Color)
  | Transform (transform : cpp3ds.Transform)
  | Texture (texture : cpp3ds.Texture)
  | CurrentTexture
  deriving DecidableEq

/-- Whether the overload is one of the two texture ones. -/
def Value.isTexture : Value → Bool
  | Value.Texture _ => true
  | Value.CurrentTexture => true
  | _ => false

/-- Overload resolution of `Shader::setParameter(name, value)`. -/
def setParameter (d : Driver) (name : String) (value : Value) (s : cpp3ds.Shader) (w : World) :
    cpp3ds.Shader × World :=
  match value with
  | Value.float x => setParameter_float d name x s w
  | Value.float2 x y => setParameter_float2 d name x y s w
  | Value.float3 x y z => setParameter_float3 d name x y z s w
  | Value.float4 x y z w4 => setParameter_float4 d name x y z w4 s w
  | Value.Vector2f v => setParameter_Vector2f d name v s w
  | Value.Vector3f v => setParameter_Vector3f d name v s w
  | Value.Color color => setParameter_Color d name color s w
  | Value.Transform transform => setParameter_Transform d name transform s w
  | Value.Texture texture => setParameter_Texture d name texture s w
  | Value.CurrentTexture => setParameter_CurrentTexture d name s w

end Shader

/-! ## Sequences of operations -/

/-- What a run of operations is given: the build configuration (whether `EMULATION` is
defined), the driver, the files and the static object `Shader::Default`. -/
structure Env where
  EMULATION : Bool
  d : Driver
  files : FileSystem
  Default : Shader

/-- One operation on a `Shader` object. -/
inductive Op where
  | loadFromFile (filename : String) (type : ShaderType)
  | loadFromFile_2 (vertexShaderFilename fragmentShaderFilename : String)
  | loadFromMemory (shader : String) (type : ShaderType)
  | loadFromMemory_2 (vertexShader fragmentShader : String)
  | loadFromStream (stream : InputStream) (type : ShaderType)
  | loadFromStream_2 (vertexShaderStream fragmentShaderStream : InputStream)
  | setParameter (name : String) (value : Shader.Value)
  | getNativeHandle
  | bindThis
  | bindNull
  | compile (vertexShaderCode fragmentShaderCode : Option String)
  | loadBinary (data : List Char) (size : Nat) (type : ShaderType)
  | getParamLocation (name : String)

/-- The operations that build the program again. -/
def Op.isRebuild : Op → Bool
  | Op.loadFromFile _ _ => true
  | Op.compile _ _ => true
  | Op.loadBinary _ _ _ => true
  | _ => false

/-- Effect of one operation on the object and the world. -/
def Op.step (env : Env) (op : Op) (s : Shader) (w : World) : Shader × World :=
  match op with
  | Op.loadFromFile filename type =>
    (Shader.loadFromFile env.EMULATION env.d env.files filename type s w).2
  | Op.loadFromFile_2 v f => (Shader.loadFromFile_2 v f s w).2
  | Op.loadFromMemory sh type => (Shader.loadFromMemory sh type s w).2
  | Op.loadFromMemory_2 v f => (Shader.loadFromMemory_2 v f s w).2
  | Op.loadFromStream st type => (Shader.loadFromStream st type s w).2
  | Op.loadFromStream_2 v f => (Shader.loadFromStream_2 v f s w).2
  | Op.setParameter name value => Shader.setParameter env.d name value s w
  | Op.getNativeHandle => (s, w)
  | Op.bindThis => (s, Shader.bind env.EMULATION env.Default (some s) w)
  | Op.bindNull => (s, Shader.bind env.EMULATION env.Default none w)
  | Op.compile v f => (Shader.compile env.EMULATION env.d v f s w).2
  | Op.loadBinary data size type => (Shader.loadBinary env.EMULATION env.d data size type s w).2
  | Op.getParamLocation name => (Shader.getParamLocation env.d name s w).2

/-- Effect of a sequence of operations, first to last. -/
def run (env : Env) : List Op → Shader → World → Shader × World
  | [], s, w => (s, w)
  | op :: rest, s, w => run env rest (op.step env s w).1 (op.step env s w).2

/-- Number of `glGetUniformLocation` queries for `name` in a transcript. -/
def locationQueries (name : String) (calls : List GLCall) : Nat :=
  calls.countP
    (fun c =>
      match c with
      | GLCall.getUniformLocation _ n _ => decide (n = name)
      | _ => false)

/-- Register textures one after the other with `setParameter(name, texture)`. -/
def registerAll (d : Driver) : List (String × Texture) → Shader → World → Shader × World
  | [], s, w => (s, w)
  | (name, texture) :: rest, s, w =>
    registerAll d rest (Shader.setParameter_Texture d name texture s w).1
      (Shader.setParameter_Texture d name texture s w).2

/-- The locations the names of `registerAll` resolve to, each at the time of its call. -/
def resolvedLocations (d : Driver) : List (String × Texture) → Shader → World → List Int
  | [], _, _ => []
  | (name, texture) :: rest, s, w =>
    (Shader.getParamLocation d name s w).1 ::
      resolvedLocations d rest (Shader.setParameter_Texture d name texture s w).1
        (Shader.setParameter_Texture d name texture s w).2

/-- The diagnostic of a rejected texture. -/
def allUnitsUsed (name : String) : String :=
  "Impossible to use texture " ++ dquote ++ name ++ dquote ++
    " for shader: all available texture units are used"

/-- No key of the texture table is the sentinel -1. -/
def Shader.keysValid (s : cpp3ds.Shader) : Prop :=
  ∀ e ∈ s.m_textures, e.1 ≠ -1

/-- The table `table` with the texture at `location` replaced by `texture`. -/
def replaced (location : Int) (texture : Texture) (table : List (Int × Texture)) :
    List (Int × Texture) :=
  table.map (fun e => if e.1 = location then (e.1, texture) else e)

/-- The world after the block `Enable program` of a `setParameter` overload: the
current program has been read and the program of the object made current. -/
def enableProgram (d : Driver) (s : Shader) (w : World) : World :=
  glUseProgram s.m_shaderProgram (glGetIntegerv d GLenum.GL_CURRENT_PROGRAM w).2

/-- The typed uniform-set call by which each overload pushes its value to `location`
(none for the two texture overloads, which push nothing). -/
def uniformCall (location : Int) : Shader.Value → List GLCall
  | Shader.Value.float x => [GLCall.uniform1f location x]
  | Shader.Value.float2 x y => [GLCall.uniform2f location x y]
  | Shader.Value.float3 x y z => [GLCall.uniform3f location x y z]
  | Shader.Value.float4 x y z w => [GLCall.uniform4f location x y z w]
  | Shader.Value.Vector2f v => [GLCall.uniform2f location v.x v.y]
  | Shader.Value.Vector3f v => [GLCall.uniform3f location v.x v.y v.z]
  | Shader.Value.Color color =>
    [GLCall.uniform4f location (floatDiv color.r.val 255) (floatDiv color.g.val 255)
      (floatDiv color.b.val 255) (floatDiv color.a.val 255)]
  | Shader.Value.Transform transform =>
    [GLCall.uniformMatrix4fv location 1 false transform.getMatrix]
  | Shader.Value.Texture _ => []
  | Shader.Value.CurrentTexture => []

/-- The handle of `s` is 0, or a program for which the transcript of `w` holds a link
status, reported by the driver, other than `GL_FALSE`. -/
def linkedOrNull (s : Shader) (w : World) : Prop :=
  s.m_shaderProgram = 0 ∨
    ∃ status, status ≠ GL_FALSE ∧
      GLCall.getObjectParameteriv s.m_shaderProgram GLenum.GL_OBJECT_LINK_STATUS_ARB status ∈
        w.calls

/-- The typed uniform-set calls. -/
def GLCall.isUniformSet : GLCall → Bool
  | GLCall.uniform1f _ _ => true
  | GLCall.uniform2f _ _ _ => true
  | GLCall.uniform3f _ _ _ _ => true
  | GLCall.uniform4f _ _ _ _ _ => true
  | GLCall.uniformMatrix4fv _ _ _ _ => true
  | _ => false

/-- The calls `glUseProgram`. -/
def GLCall.isUseProgram : GLCall → Bool
  | GLCall.useProgram _ => true
  | _ => false

/-- Number of `glUseProgram` calls in a list of calls. -/
def useProgramCalls (calls : List GLCall) : Nat := calls.countP GLCall.isUseProgram

/-- Number of typed uniform-set calls in a list of calls. -/
def uniformSetCalls (calls : List GLCall) : Nat := calls.countP GLCall.isUniformSet

/-- The world before any call. -/
def World.empty : World := { calls := [], err := [], bindTexturesLog := [] }

/-- A driver for the examples: it hands out the objects 1, 2, 3, ... (one more than the
number of calls made so far), accepts every source but `garbage`, links every program,
places the uniform `name` of program `p` at location `p + name.length` (it knows no
uniform `missing`), and has four texture units. -/
def exampleDriver : Driver :=
  { initialProgram := 0
    maxCombinedTextureImageUnits := fun _ => 4
    uniformLocation := fun _ p name =>
      if name = "missing" then -1 else (p : Int) + (name.length : Int)
    createProgramObject := fun calls => calls.length + 1
    createShaderObject := fun calls _ => calls.length + 1
    objectParameter := fun calls obj pname =>
      if pname = GLenum.GL_OBJECT_COMPILE_STATUS_ARB then
        if GLCall.shaderSource obj "garbage" ∈ calls then 0 else 1
      else 1
    infoLog := fun _ _ => "0:1: parse error"
    createProgram := fun calls => calls.length + 1 }

/-- Number of queries still to come for `name`: 1 while it is not cached, 0 after. -/
def pendingQueries (name : String) (s : Shader) : Nat :=
  if (s.m_params.lookup name).isSome then 0 else 1

/-- An object built before: program 1, `u_color` cached at location 3, one texture
registered at location 3, which is also the current-texture slot. -/
def builtBefore : Shader :=
  { m_shaderProgram := 1, m_currentTexture := 3, m_textures := [(3, { address := 16 })],
    m_params := [("u_color", 3)], m_shaderData := [] }

/-- A built object with empty caches: program 1. -/
def builtEmpty : Shader :=
  { m_shaderProgram := 1, m_currentTexture := -1, m_textures := [], m_params := [],
    m_shaderData := [] }

/-- The files of the examples: a malformed source, a well-formed one and an empty
file. -/
def exampleFiles : FileSystem := fun filename =>
  if filename = "../res/glsl/bad.glsl" then some "garbage".data
  else if filename = "../res/glsl/good.glsl" then some "attribute vec4 p;".data
  else if filename = "../res/glsl/empty.glsl" then some []
  else none

/-- The source texts handed to `glShaderSource` in a list of calls, in order. -/
def sourcesCompiled (calls : List GLCall) : List String :=
  calls.filterMap
    (fun c =>
      match c with
      | GLCall.shaderSource _ source => some source
      | _ => none)

/-- The program objects handed out by `glCreateProgramObjectARB` in a list of calls. -/
def programsCreated (calls : List GLCall) : List Nat :=
  calls.filterMap
    (fun c =>
      match c with
      | GLCall.createProgramObject p => some p
      | _ => none)

/-- The shader objects handed out by `glCreateShaderObjectARB` in a list of calls. -/
def shadersCreated (calls : List GLCall) : List Nat :=
  calls.filterMap
    (fun c =>
      match c with
      | GLCall.createShaderObject _ v => some v
      | _ => none)

/-- Number of calls in a list that delete the object named `x` (`glDeleteObjectARB(x)`
or `glDeleteProgram(x)`). -/
def deletions (x : Nat) (calls : List GLCall) : Nat :=
  calls.countP
    (fun c =>
      match c with
      | GLCall.deleteObject o => decide (o = x)
      | GLCall.deleteProgram o => decide (o = x)
      | _ => false)

/-- A sequence of `compile` calls, given by their arguments. -/
def compileAll (env : Env) (sources : List (Option String × Option String)) (s : Shader)
    (w : World) : Shader × World :=
  run env (sources.map (fun c => Op.compile c.1 c.2)) s w

/-- The programs an object owns before a run: its handle, unless it is 0. -/
def ownedBefore (s : Shader) : List Nat :=
  if s.m_shaderProgram = 0 then [] else [s.m_shaderProgram]

/-- The bookkeeping of a run that owned the programs `pre` before and has added the
calls `new`: the handle of `s` is 0 or one of the programs owned or created, and the
calls that delete an object named `x` are one for each shader object named `x` that
was created, and one more if `x` is a program owned or created other than the handle. -/
def ownsExactly (pre : List Nat) (s : Shader) (new : List GLCall) : Prop :=
  (s.m_shaderProgram = 0 ∨ s.m_shaderProgram ∈ pre ++ programsCreated new) ∧
    ∀ x, deletions x new =
      (shadersCreated new).count x +
        (if x ∈ pre ++ programsCreated new ∧ x ≠ s.m_shaderProgram then 1 else 0)

/-- The calls added during the life of an object from the state `s` on: a sequence of
`compile` calls followed by the destructor. -/
def lifeCalls (env : Env) (sources : List (Option String × Option String)) (s : Shader)
    (w0 : World) : List GLCall :=
  (Shader.destructor (compileAll env sources s w0).1
    (compileAll env sources s w0).2).calls.drop w0.calls.length

/-! ## Properties -/

/-- With the handle at 0 an overload returns the object and the world it was given. -/
theorem setParameter_of_unbuilt (d : Driver) (name : String) (value : Shader.Value)
    (s : Shader) (w : World) (h : s.m_shaderProgram = 0) :
    Shader.setParameter d name value s w = (s, w) := by
  cases value <;>
    simp [Shader.setParameter, Shader.setParameter_float, Shader.setParameter_float2,
      Shader.setParameter_float3, Shader.setParameter_float4, Shader.setParameter_Vector2f,
      Shader.setParameter_Vector3f, Shader.setParameter_Color, Shader.setParameter_Transform,
      Shader.setParameter_Texture, Shader.setParameter_CurrentTexture, h]

/-- C1: on a `Shader` whose program handle is 0 every `setParameter` overload does
nothing: the object (handle, parameter cache, texture table, current-texture slot) and
the world (transcript of driver calls, diagnostics) are returned as they were, so no
driver call is made. -/
theorem C1_setParameter_before_build (d : Driver) (name : String) (value : Shader.Value)
    (s : Shader) (w : World) (h : s.m_shaderProgram = 0) :
    Shader.setParameter d name value s w = (s, w) ∧
      (Shader.setParameter d name value s w).2.calls.drop w.calls.length = [] := by
  rw [setParameter_of_unbuilt d name value s w h]
  exact ⟨rfl, by simp⟩

/-- Witness of C1: a colour set on a freshly constructed object. -/
theorem C1_setParameter_before_build_witness :
    Shader.Shader.m_shaderProgram = 0 ∧
      Shader.setParameter exampleDriver "u_color" (Shader.Value.Color Color.Red) Shader.Shader
        World.empty = (Shader.Shader, World.empty) :=
  ⟨rfl, (C1_setParameter_before_build exampleDriver "u_color" (Shader.Value.Color Color.Red)
    Shader.Shader World.empty rfl).1⟩

theorem locationQueries_call (name : String) (w : World) (c : GLCall) :
    locationQueries name (w.call c).calls =
      locationQueries name w.calls +
        (match c with
         | GLCall.getUniformLocation _ n _ => if n = name then 1 else 0
         | _ => 0) := by
  cases c <;> simp [locationQueries, World.call, List.countP_append]
  split <;> simp_all

theorem locationQueries_report (name : String) (w : World) (msg : String) :
    locationQueries name (w.report msg).calls = locationQueries name w.calls := rfl

/-- A lookup of `n` never raises queries made plus queries pending for `name`, and it
leaves every member but the parameter cache as it was. -/
theorem getParamLocation_budget (d : Driver) (name n : String) (s : Shader) (w : World) :
    locationQueries name (Shader.getParamLocation d n s w).2.2.calls +
        pendingQueries name (Shader.getParamLocation d n s w).2.1 ≤
      locationQueries name w.calls + pendingQueries name s := by
  unfold Shader.getParamLocation
  cases hl : s.m_params.lookup n with
  | some loc => simp
  | none =>
    by_cases hn : n = name
    · subst hn
      simp only [glGetUniformLocation]
      have hp : pendingQueries n s = 1 := by simp [pendingQueries, hl]
      have hp2 : ∀ loc, pendingQueries n { s with m_params := (n, loc) :: s.m_params } = 0 := by
        intro loc; simp [pendingQueries, List.lookup]
      split <;> simp [hp, hp2, locationQueries_report, locationQueries_call]
    · simp only [glGetUniformLocation]
      have hne : (name == n) = false := by simpa using fun h => hn h.symm
      have hp2 : ∀ loc, pendingQueries name { s with m_params := (n, loc) :: s.m_params } =
          pendingQueries name s := by
        intro loc; simp only [pendingQueries, List.lookup, hne]
      split <;> simp [hp2, locationQueries_report, locationQueries_call, hn]

theorem locationQueries_glUseProgram (name : String) (p : Nat) (w : World) :
    locationQueries name (glUseProgram p w).calls = locationQueries name w.calls := by
  simp [glUseProgram, locationQueries_call]

theorem locationQueries_glGetIntegerv (name : String) (d : Driver) (pname : GLenum) (w : World) :
    locationQueries name (glGetIntegerv d pname w).2.calls = locationQueries name w.calls := by
  simp [glGetIntegerv, locationQueries_call]

/-- The frame shared by the float, vector, colour and matrix overloads: whatever call
`u` pushes the value, the budget of `getParamLocation_budget` is kept. -/
theorem frame_budget (d : Driver) (name n : String) (s : Shader) (w : World) (u : GLCall)
    (hu : u.isUniformSet = true) :
    locationQueries name
        (glUseProgram (toGLuint (glGetIntegerv d GLenum.GL_CURRENT_PROGRAM w).1)
          (if (Shader.getParamLocation d n s
                (glUseProgram s.m_shaderProgram
                  (glGetIntegerv d GLenum.GL_CURRENT_PROGRAM w).2)).1 ≠ -1 then
            (Shader.getParamLocation d n s
                (glUseProgram s.m_shaderProgram
                  (glGetIntegerv d GLenum.GL_CURRENT_PROGRAM w).2)).2.2.call u
          else
            (Shader.getParamLocation d n s
                (glUseProgram s.m_shaderProgram
                  (glGetIntegerv d GLenum.GL_CURRENT_PROGRAM w).2)).2.2)).calls +
        pendingQueries name
          (Shader.getParamLocation d n s
            (glUseProgram s.m_shaderProgram
              (glGetIntegerv d GLenum.GL_CURRENT_PROGRAM w).2)).2.1 ≤
      locationQueries name w.calls + pendingQueries name s := by
  have key := getParamLocation_budget d name n s
    (glUseProgram s.m_shaderProgram (glGetIntegerv d GLenum.GL_CURRENT_PROGRAM w).2)
  rw [locationQueries_glUseProgram, locationQueries_glGetIntegerv] at key
  rw [locationQueries_glUseProgram]
  split
  · rw [locationQueries_call]
    cases u <;> simp [GLCall.isUniformSet] at hu <;> simpa using key
  · exact key

/-- Every `setParameter` overload keeps the budget of `getParamLocation_budget`. -/
theorem setParameter_budget (d : Driver) (name n : String) (value : Shader.Value) (s : Shader)
    (w : World) :
    locationQueries name (Shader.setParameter d n value s w).2.calls +
        pendingQueries name (Shader.setParameter d n value s w).1 ≤
      locationQueries name w.calls + pendingQueries name s := by
  by_cases h0 : s.m_shaderProgram = 0
  · rw [setParameter_of_unbuilt d n value s w h0]
  · cases value with
    | Texture texture =>
      have key := getParamLocation_budget d name n s w
      simp only [Shader.setParameter, Shader.setParameter_Texture, h0, ne_eq, not_false_eq_true,
        if_true]
      split
      · split
        · split
          · simpa [locationQueries_report, locationQueries_glGetIntegerv, pendingQueries] using key
          · simpa [locationQueries_glGetIntegerv, pendingQueries] using key
        · simpa [pendingQueries] using key
      · exact key
    | CurrentTexture =>
      have key := getParamLocation_budget d name n s w
      simp only [Shader.setParameter, Shader.setParameter_CurrentTexture, h0, ne_eq,
        not_false_eq_true, if_true]
      simpa [pendingQueries] using key
    | _ =>
      simp only [Shader.setParameter, Shader.setParameter_float, Shader.setParameter_float2,
        Shader.setParameter_float3, Shader.setParameter_float4, Shader.setParameter_Vector2f,
        Shader.setParameter_Vector3f, Shader.setParameter_Color, Shader.setParameter_Transform,
        h0, ne_eq, not_false_eq_true, if_true, glUniform1f, glUniform2f, glUniform3f,
        glUniform4f, glUniformMatrix4fv]
      exact frame_budget d name n s w _ rfl

theorem bind_calls (EMULATION : Bool) (Default : Shader) (shader : Option Shader) (w : World) :
    ∃ p, (Shader.bind EMULATION Default shader w).calls = w.calls ++ [GLCall.useProgram p] := by
  unfold Shader.bind
  cases shader with
  | none => cases EMULATION <;> simp [Shader.isAvailable, Shader.bindTextures, glUseProgram,
      World.call]
  | some sh =>
    by_cases h : sh.m_shaderProgram = 0 <;> cases EMULATION <;>
      simp [Shader.isAvailable, Shader.bindTextures, glUseProgram, World.call, h]

theorem locationQueries_bind (name : String) (EMULATION : Bool) (Default : Shader)
    (shader : Option Shader) (w : World) :
    locationQueries name (Shader.bind EMULATION Default shader w).calls =
      locationQueries name w.calls := by
  obtain ⟨p, hp⟩ := bind_calls EMULATION Default shader w
  rw [hp]
  simp [locationQueries, List.countP_append]

/-- An operation that is not a rebuild keeps the budget of `getParamLocation_budget`. -/
theorem step_budget (env : Env) (name : String) (op : Op) (s : Shader) (w : World)
    (h : op.isRebuild = false) :
    locationQueries name (op.step env s w).2.calls + pendingQueries name (op.step env s w).1 ≤
      locationQueries name w.calls + pendingQueries name s := by
  cases op <;> simp only [Op.isRebuild, Bool.true_eq_false] at h <;>
    simp only [Op.step, Shader.loadFromFile_2, Shader.loadFromMemory, Shader.loadFromMemory_2,
      Shader.loadFromStream, Shader.loadFromStream_2, locationQueries_bind, le_refl]
  · exact setParameter_budget env.d name _ _ s w
  · exact getParamLocation_budget env.d name _ s w

theorem run_budget (env : Env) (name : String) (ops : List Op) :
    ∀ (s : Shader) (w : World), (∀ op ∈ ops, op.isRebuild = false) →
      locationQueries name (run env ops s w).2.calls + pendingQueries name (run env ops s w).1 ≤
        locationQueries name w.calls + pendingQueries name s := by
  induction ops with
  | nil => intro s w _; simp [run]
  | cons op rest ih =>
    intro s w h
    have h1 := step_budget env name op s w (h op (List.mem_cons_self op rest))
    have h2 := ih (op.step env s w).1 (op.step env s w).2
      (fun o ho => h o (List.mem_cons_of_mem op ho))
    simp only [run]
    omega

theorem pendingQueries_le_one (name : String) (s : Shader) : pendingQueries name s ≤ 1 := by
  unfold pendingQueries; split <;> omega

/-- C2: two consecutive `getParamLocation(name)` calls return the same value (also the
sentinel -1), the second one leaves the object and the world as the first one left them
(it makes no driver call), and together they add at most one `glGetUniformLocation`
query for `name`; more generally a sequence of operations none of which is a rebuild
adds at most one such query for `name` to the transcript. -/
theorem C2_getParamLocation_memoized (env : Env) (name : String) (s : Shader) (w : World)
    (ops : List Op) (h : ∀ op ∈ ops, op.isRebuild = false) :
    ((Shader.getParamLocation env.d name (Shader.getParamLocation env.d name s w).2.1
          (Shader.getParamLocation env.d name s w).2.2).1 =
        (Shader.getParamLocation env.d name s w).1 ∧
      (Shader.getParamLocation env.d name (Shader.getParamLocation env.d name s w).2.1
          (Shader.getParamLocation env.d name s w).2.2).2 =
        (Shader.getParamLocation env.d name s w).2 ∧
      locationQueries name
          (Shader.getParamLocation env.d name (Shader.getParamLocation env.d name s w).2.1
            (Shader.getParamLocation env.d name s w).2.2).2.2.calls ≤
        locationQueries name w.calls + 1) ∧
    locationQueries name (run env ops s w).2.calls ≤ locationQueries name w.calls + 1 := by
  have hcached : ∀ (s1 : Shader) (w1 : World) (loc : Int),
      s1.m_params.lookup name = some loc →
        Shader.getParamLocation env.d name s1 w1 = (loc, s1, w1) := by
    intro s1 w1 loc hl
    simp [Shader.getParamLocation, hl]
  have hfirst : (Shader.getParamLocation env.d name s w).2.1.m_params.lookup name =
      some (Shader.getParamLocation env.d name s w).1 := by
    unfold Shader.getParamLocation
    cases hl : s.m_params.lookup name with
    | some loc => simp [hl]
    | none => simp [List.lookup]
  have hsecond := hcached _ (Shader.getParamLocation env.d name s w).2.2 _ hfirst
  have hb := getParamLocation_budget env.d name name s w
  have hp := pendingQueries_le_one name s
  have hr := run_budget env name ops s w h
  refine ⟨⟨?_, ?_, ?_⟩, ?_⟩
  · rw [hsecond]
  · rw [hsecond]
  · rw [hsecond]; show locationQueries name (Shader.getParamLocation env.d name s w).2.2.calls ≤ _
    omega
  · omega

/-- Witness of C2: four operations on a built object, three of which resolve `u_color`. -/
theorem C2_getParamLocation_memoized_witness :
    (∀ op ∈ [Op.setParameter "u_color" (Shader.Value.float 1), Op.getParamLocation "u_color",
        Op.bindThis, Op.setParameter "u_color" (Shader.Value.Color Color.Red)],
      op.isRebuild = false) ∧
    locationQueries "u_color"
        (run { EMULATION := true, d := exampleDriver, files := fun _ => none,
               Default := Shader.Shader }
          [Op.setParameter "u_color" (Shader.Value.float 1), Op.getParamLocation "u_color",
            Op.bindThis, Op.setParameter "u_color" (Shader.Value.Color Color.Red)]
          { Shader.Shader with m_shaderProgram := 1 } World.empty).2.calls ≤
      locationQueries "u_color" World.empty.calls + 1 :=
  ⟨by simp [Op.isRebuild],
   (C2_getParamLocation_memoized
      { EMULATION := true, d := exampleDriver, files := fun _ => none, Default := Shader.Shader }
      "u_color" { Shader.Shader with m_shaderProgram := 1 } World.empty
      [Op.setParameter "u_color" (Shader.Value.float 1), Op.getParamLocation "u_color",
        Op.bindThis, Op.setParameter "u_color" (Shader.Value.Color Color.Red)]
      (by simp [Op.isRebuild])).2⟩

/-- In the source-compile configuration `compile` always leaves the caches reset, and
the object it leaves differs from the reset one in the handle only. -/
theorem compile_resets (d : Driver) (v f : Option String) (s : Shader) (w : World) :
    (Shader.compile true d v f s w).2.1.m_params = [] ∧
      (Shader.compile true d v f s w).2.1.m_textures = [] ∧
      (Shader.compile true d v f s w).2.1.m_currentTexture = -1 ∧
      (Shader.compile true d v f s w).2.1.m_shaderData = s.m_shaderData := by
  cases v <;> simp only [Shader.compile, Shader.isAvailable, Bool.not_true, Bool.false_eq_true,
    if_false, if_true] <;> split_ifs <;> simp only [] <;> (try split_ifs) <;> simp

/-- A lookup of a name that is not cached asks the driver and caches the answer. -/
theorem getParamLocation_of_not_cached (d : Driver) (name : String) (s : Shader) (w : World)
    (h : s.m_params.lookup name = none) :
    (Shader.getParamLocation d name s w).1 = d.uniformLocation w.calls s.m_shaderProgram name ∧
      (Shader.getParamLocation d name s w).2.1 =
        { s with m_params :=
            (name, d.uniformLocation w.calls s.m_shaderProgram name) :: s.m_params } ∧
      (Shader.getParamLocation d name s w).2.2.calls =
        w.calls ++ [GLCall.getUniformLocation s.m_shaderProgram name
          (d.uniformLocation w.calls s.m_shaderProgram name)] := by
  simp only [Shader.getParamLocation, h, glGetUniformLocation]
  refine ⟨trivial, trivial, ?_⟩
  split <;> simp [World.report, World.call]

/-- C3: after a `compile` that returns true (source-compile configuration) the
parameter cache and the texture table are empty and the current-texture slot is -1,
whatever the object held before (in particular a name cached as L by the previous
build); the next `getParamLocation(name)` therefore appends one
`glGetUniformLocation` query against the new handle to the transcript and returns the
answer the driver gives to that query. -/
theorem C3_rebuild_clears_cache (d : Driver) (v f : Option String) (s : Shader) (w : World)
    (name : String) (h : (Shader.compile true d v f s w).1 = true) :
    (Shader.compile true d v f s w).2.1.m_params = [] ∧
      (Shader.compile true d v f s w).2.1.m_textures = [] ∧
      (Shader.compile true d v f s w).2.1.m_currentTexture = -1 ∧
      (Shader.getParamLocation d name (Shader.compile true d v f s w).2.1
          (Shader.compile true d v f s w).2.2).1 =
        d.uniformLocation (Shader.compile true d v f s w).2.2.calls
          (Shader.compile true d v f s w).2.1.m_shaderProgram name ∧
      (Shader.getParamLocation d name (Shader.compile true d v f s w).2.1
          (Shader.compile true d v f s w).2.2).2.2.calls =
        (Shader.compile true d v f s w).2.2.calls ++
          [GLCall.getUniformLocation (Shader.compile true d v f s w).2.1.m_shaderProgram name
            (d.uniformLocation (Shader.compile true d v f s w).2.2.calls
              (Shader.compile true d v f s w).2.1.m_shaderProgram name)] := by
  obtain ⟨hp, ht, hc, _⟩ := compile_resets d v f s w
  have hl : (Shader.compile true d v f s w).2.1.m_params.lookup name = none := by
    rw [hp]; rfl
  obtain ⟨h1, _, h3⟩ := getParamLocation_of_not_cached d name
    (Shader.compile true d v f s w).2.1 (Shader.compile true d v f s w).2.2 hl
  exact ⟨hp, ht, hc, h1, h3⟩

/-- Witness of C3: `builtBefore` is compiled again; the new program is 2 and `u_color`
is resolved to the driver's new answer 9, not to the cached 3. -/
theorem C3_rebuild_clears_cache_witness :
    (Shader.compile true exampleDriver (some "uniform vec4 u_color;") none builtBefore
        World.empty).1 = true ∧
      builtBefore.m_params.lookup "u_color" = some 3 ∧
      (Shader.getParamLocation exampleDriver "u_color"
          (Shader.compile true exampleDriver (some "uniform vec4 u_color;") none builtBefore
            World.empty).2.1
          (Shader.compile true exampleDriver (some "uniform vec4 u_color;") none builtBefore
            World.empty).2.2).1 = 9 := by
  have hw : (Shader.compile true exampleDriver (some "uniform vec4 u_color;") none builtBefore
      World.empty).1 = true := by decide
  refine ⟨hw, by decide, ?_⟩
  rw [(C3_rebuild_clears_cache exampleDriver (some "uniform vec4 u_color;") none builtBefore
    World.empty "u_color" hw).2.2.2.1]
  decide

/-- A lookup changes no member but the parameter cache. -/
theorem getParamLocation_frame (d : Driver) (name : String) (s : Shader) (w : World) :
    (Shader.getParamLocation d name s w).2.1.m_shaderProgram = s.m_shaderProgram ∧
      (Shader.getParamLocation d name s w).2.1.m_textures = s.m_textures ∧
      (Shader.getParamLocation d name s w).2.1.m_currentTexture = s.m_currentTexture ∧
      (Shader.getParamLocation d name s w).2.1.m_shaderData = s.m_shaderData := by
  unfold Shader.getParamLocation
  split <;> simp

/-- A new location is inserted while one more entry stays below the maximum. -/
theorem setParameter_Texture_insert (d : Driver) (name : String) (texture : Texture)
    (s : Shader) (w : World) (hb : s.m_shaderProgram ≠ 0)
    (hloc : (Shader.getParamLocation d name s w).1 ≠ -1)
    (hnew : s.m_textures.lookup (Shader.getParamLocation d name s w).1 = none)
    (hroom : s.m_textures.length + 1 <
      toSizeT (d.maxCombinedTextureImageUnits (Shader.getParamLocation d name s w).2.2.calls)) :
    Shader.setParameter_Texture d name texture s w =
      ({ (Shader.getParamLocation d name s w).2.1 with
          m_textures := ((Shader.getParamLocation d name s w).1, texture) :: s.m_textures },
        (glGetIntegerv d GLenum.GL_MAX_COMBINED_TEXTURE_IMAGE_UNITS
          (Shader.getParamLocation d name s w).2.2).2) := by
  have hf := (getParamLocation_frame d name s w).2.1
  simp only [Shader.setParameter_Texture, hb, ne_eq, not_false_eq_true, if_true, hloc, hf, hnew,
    glGetIntegerv]
  rw [if_neg (by omega)]

/-- A new location is rejected when one more entry would reach the maximum. -/
theorem setParameter_Texture_reject (d : Driver) (name : String) (texture : Texture)
    (s : Shader) (w : World) (hb : s.m_shaderProgram ≠ 0)
    (hloc : (Shader.getParamLocation d name s w).1 ≠ -1)
    (hnew : s.m_textures.lookup (Shader.getParamLocation d name s w).1 = none)
    (hfull : s.m_textures.length + 1 ≥
      toSizeT (d.maxCombinedTextureImageUnits (Shader.getParamLocation d name s w).2.2.calls)) :
    Shader.setParameter_Texture d name texture s w =
      ((Shader.getParamLocation d name s w).2.1,
        (glGetIntegerv d GLenum.GL_MAX_COMBINED_TEXTURE_IMAGE_UNITS
          (Shader.getParamLocation d name s w).2.2).2.report (allUnitsUsed name)) := by
  have hf := (getParamLocation_frame d name s w).2.1
  simp only [Shader.setParameter_Texture, hb, ne_eq, not_false_eq_true, if_true, hloc, hf, hnew,
    glGetIntegerv, allUnitsUsed]
  rw [if_pos (by omega)]

theorem toSizeT_natCast (M : Nat) (h : M < 2147483648) : toSizeT (M : Int) = M := by
  unfold toSizeT
  omega

/-- A lookup that does not return -1 writes no diagnostic. -/
theorem getParamLocation_err (d : Driver) (name : String) (s : Shader) (w : World)
    (h : (Shader.getParamLocation d name s w).1 ≠ -1) :
    (Shader.getParamLocation d name s w).2.2.err = w.err := by
  unfold Shader.getParamLocation at h ⊢
  cases hl : s.m_params.lookup name with
  | some loc => rfl
  | none =>
    rw [hl] at h
    simp only [] at h ⊢
    rw [if_neg h]
    rfl

theorem resolvedLocations_length (d : Driver) (regs : List (String × Texture)) :
    ∀ (s : Shader) (w : World), (resolvedLocations d regs s w).length = regs.length := by
  induction regs with
  | nil => intro s w; rfl
  | cons r rest ih =>
    intro s w
    obtain ⟨name, texture⟩ := r
    simp [resolvedLocations, ih]

/-- Registering names that resolve to pairwise distinct new locations, while the table
stays below the maximum `M`, inserts every one of them. -/
theorem registerAll_inserts (d : Driver) (M : Nat) (hM : M < 2147483648)
    (hmax : ∀ calls, d.maxCombinedTextureImageUnits calls = (M : Int))
    (regs : List (String × Texture)) :
    ∀ (s : Shader) (w : World), s.m_shaderProgram ≠ 0 →
      (resolvedLocations d regs s w).Nodup →
      (∀ l ∈ resolvedLocations d regs s w, l ≠ -1 ∧ s.m_textures.lookup l = none) →
      s.m_textures.length + regs.length < M →
      (registerAll d regs s w).1.m_textures =
          ((resolvedLocations d regs s w).zip (regs.map Prod.snd)).reverse ++ s.m_textures ∧
        (registerAll d regs s w).1.m_shaderProgram = s.m_shaderProgram := by
  induction regs with
  | nil => intro s w _ _ _ _; simp [registerAll, resolvedLocations]
  | cons r rest ih =>
    intro s w hb hnd hall hlen
    obtain ⟨name, texture⟩ := r
    simp only [resolvedLocations, List.nodup_cons, List.mem_cons, forall_eq_or_imp,
      List.length_cons] at hnd hall hlen
    obtain ⟨hnotin, hnd⟩ := hnd
    obtain ⟨⟨hloc, hnew⟩, hall⟩ := hall
    have hins := setParameter_Texture_insert d name texture s w hb hloc hnew
      (by rw [hmax, toSizeT_natCast M hM]; omega)
    have hf := getParamLocation_frame d name s w
    have hb1 : (Shader.setParameter_Texture d name texture s w).1.m_shaderProgram ≠ 0 := by
      rw [hins]; simpa [hf.1] using hb
    have ht1 : (Shader.setParameter_Texture d name texture s w).1.m_textures =
        ((Shader.getParamLocation d name s w).1, texture) :: s.m_textures := by
      rw [hins]
    have hall1 : ∀ l ∈ resolvedLocations d rest (Shader.setParameter_Texture d name texture s w).1
        (Shader.setParameter_Texture d name texture s w).2,
        l ≠ -1 ∧ (Shader.setParameter_Texture d name texture s w).1.m_textures.lookup l = none := by
      intro l hl
      refine ⟨(hall l hl).1, ?_⟩
      have hne : (l == (Shader.getParamLocation d name s w).1) = false := by
        rw [beq_eq_false_iff_ne]
        intro heq
        exact hnotin (heq ▸ hl)
      rw [ht1]
      simp only [List.lookup, hne]
      exact (hall l hl).2
    have hstep := ih _ _ hb1 hnd hall1 (by rw [ht1]; simp only [List.length_cons]; omega)
    simp only [registerAll, resolvedLocations, List.map_cons, List.zip_cons_cons,
      List.reverse_cons, List.append_assoc, List.singleton_append]
    refine ⟨?_, ?_⟩
    · rw [hstep.1, ht1]
    · rw [hstep.2, hins]; exact hf.1

/-- C4: let the driver report `M ≥ 1` combined texture image units and let a built
object have an empty texture table.  Registering `M - 1` textures whose names resolve
to pairwise distinct locations, none of them -1, inserts every one of them: the table
holds exactly these location/texture pairs and has size `M - 1`.  A further
`setParameter(name, texture)` whose name resolves to a location (not -1) that is not in
the table leaves the table as it is and writes the diagnostic `all available texture
units are used`. -/
theorem C4_texture_units_bound (d : Driver) (M : Nat) (regs : List (String × Texture))
    (s : Shader) (w : World) (hM1 : 1 ≤ M) (hM : M < 2147483648)
    (hmax : ∀ calls, d.maxCombinedTextureImageUnits calls = (M : Int))
    (hb : s.m_shaderProgram ≠ 0) (hempty : s.m_textures = [])
    (hcount : regs.length = M - 1)
    (hnd : (resolvedLocations d regs s w).Nodup)
    (hfound : ∀ l ∈ resolvedLocations d regs s w, l ≠ -1) :
    (registerAll d regs s w).1.m_textures =
        ((resolvedLocations d regs s w).zip (regs.map Prod.snd)).reverse ∧
      (registerAll d regs s w).1.m_textures.length = M - 1 ∧
      ∀ (name : String) (texture : Texture),
        (Shader.getParamLocation d name (registerAll d regs s w).1
            (registerAll d regs s w).2).1 ≠ -1 →
        (registerAll d regs s w).1.m_textures.lookup
            (Shader.getParamLocation d name (registerAll d regs s w).1
              (registerAll d regs s w).2).1 = none →
        (Shader.setParameter_Texture d name texture (registerAll d regs s w).1
            (registerAll d regs s w).2).1.m_textures = (registerAll d regs s w).1.m_textures ∧
          (Shader.setParameter_Texture d name texture (registerAll d regs s w).1
            (registerAll d regs s w).2).2.err =
            (registerAll d regs s w).2.err ++ [allUnitsUsed name] := by
  have hreg := registerAll_inserts d M hM hmax regs s w hb hnd
    (fun l hl => ⟨hfound l hl, by rw [hempty]; rfl⟩) (by rw [hempty]; simp; omega)
  rw [hempty, List.append_nil] at hreg
  have hlen : (registerAll d regs s w).1.m_textures.length = M - 1 := by
    rw [hreg.1]
    simp [resolvedLocations_length, hcount]
  refine ⟨hreg.1, hlen, ?_⟩
  intro name texture hloc hnew
  have hrej := setParameter_Texture_reject d name texture (registerAll d regs s w).1
    (registerAll d regs s w).2 (by rw [hreg.2]; exact hb) hloc hnew
    (by rw [hmax, toSizeT_natCast M hM, hlen]; omega)
  rw [hrej]
  refine ⟨(getParamLocation_frame d name _ _).2.1, ?_⟩
  simp only [World.report, glGetIntegerv, World.call]
  rw [getParamLocation_err d name _ _ hloc]

/-- Witness of C4: four texture units, three registrations at the locations 2, 3, 4;
the fourth one, at location 5, is rejected. -/
theorem C4_texture_units_bound_witness :
    (resolvedLocations exampleDriver
        [("a", { address := 1 }), ("bb", { address := 2 }), ("ccc", { address := 3 })]
        builtEmpty World.empty) = [2, 3, 4] ∧
      (registerAll exampleDriver
        [("a", { address := 1 }), ("bb", { address := 2 }), ("ccc", { address := 3 })]
        builtEmpty World.empty).1.m_textures.length = 4 - 1 ∧
      (Shader.setParameter_Texture exampleDriver "dddd" { address := 4 }
        (registerAll exampleDriver
          [("a", { address := 1 }), ("bb", { address := 2 }), ("ccc", { address := 3 })]
          builtEmpty World.empty).1
        (registerAll exampleDriver
          [("a", { address := 1 }), ("bb", { address := 2 }), ("ccc", { address := 3 })]
          builtEmpty World.empty).2).1.m_textures =
        (registerAll exampleDriver
          [("a", { address := 1 }), ("bb", { address := 2 }), ("ccc", { address := 3 })]
          builtEmpty World.empty).1.m_textures := by
  have h := C4_texture_units_bound exampleDriver 4
    [("a", { address := 1 }), ("bb", { address := 2 }), ("ccc", { address := 3 })]
    builtEmpty World.empty (by decide) (by decide) (fun _ => rfl) (by decide) rfl rfl
    (by decide) (by decide)
  exact ⟨by decide, h.2.1, (h.2.2 "dddd" { address := 4 } (by decide) (by decide)).1⟩

theorem lookup_mem (k : Int) (v : Texture) (table : List (Int × Texture))
    (h : table.lookup k = some v) : (k, v) ∈ table := by
  induction table with
  | nil => simp [List.lookup] at h
  | cons e rest ih =>
    obtain ⟨k1, v1⟩ := e
    by_cases hk : k = k1
    · subst hk
      simp [List.lookup] at h
      simp [h]
    · have hne : (k == k1) = false := by rw [beq_eq_false_iff_ne]; exact hk
      simp only [List.lookup, hne] at h
      exact List.mem_cons_of_mem _ (ih h)

theorem replaced_cons_same (k : Int) (v v1 : Texture) (rest : List (Int × Texture)) :
    replaced k v ((k, v1) :: rest) = (k, v) :: replaced k v rest := by
  simp [replaced]

theorem replaced_cons_other (k k1 : Int) (v v1 : Texture) (rest : List (Int × Texture))
    (h : k1 ≠ k) : replaced k v ((k1, v1) :: rest) = (k1, v1) :: replaced k v rest := by
  simp [replaced, h]

theorem lookup_replaced_same (k : Int) (v old : Texture) (table : List (Int × Texture))
    (h : table.lookup k = some old) : (replaced k v table).lookup k = some v := by
  induction table with
  | nil => simp [List.lookup] at h
  | cons e rest ih =>
    obtain ⟨k1, v1⟩ := e
    by_cases hk : k1 = k
    · subst hk
      rw [replaced_cons_same]
      simp [List.lookup]
    · have hne : (k == k1) = false := by rw [beq_eq_false_iff_ne]; exact fun h => hk h.symm
      simp only [List.lookup, hne] at h
      rw [replaced_cons_other k k1 v v1 rest hk]
      simp only [List.lookup, hne]
      exact ih h

theorem lookup_replaced_other (k j : Int) (v : Texture) (table : List (Int × Texture))
    (h : j ≠ k) : (replaced k v table).lookup j = table.lookup j := by
  induction table with
  | nil => rfl
  | cons e rest ih =>
    obtain ⟨k1, v1⟩ := e
    by_cases hk : k1 = k
    · subst hk
      have hne : (j == k1) = false := by rw [beq_eq_false_iff_ne]; exact h
      rw [replaced_cons_same]
      simp only [List.lookup, hne]
      exact ih
    · rw [replaced_cons_other k k1 v v1 rest hk]
      simp only [List.lookup]
      rw [ih]

theorem replaced_keys (k : Int) (v : Texture) (table : List (Int × Texture)) :
    (replaced k v table).map Prod.fst = table.map Prod.fst := by
  induction table with
  | nil => rfl
  | cons e rest ih =>
    simp only [replaced, List.map_cons, List.cons.injEq] at ih ⊢
    refine ⟨?_, ih⟩
    split <;> rfl

/-- A registered location is replaced without any look at the size of the table. -/
theorem setParameter_Texture_replace (d : Driver) (name : String) (texture old : Texture)
    (s : Shader) (w : World) (hb : s.m_shaderProgram ≠ 0)
    (hloc : (Shader.getParamLocation d name s w).1 ≠ -1)
    (hkey : s.m_textures.lookup (Shader.getParamLocation d name s w).1 = some old) :
    Shader.setParameter_Texture d name texture s w =
      ({ (Shader.getParamLocation d name s w).2.1 with
          m_textures := replaced (Shader.getParamLocation d name s w).1 texture s.m_textures },
        (Shader.getParamLocation d name s w).2.2) := by
  have hf := (getParamLocation_frame d name s w).2.1
  simp only [Shader.setParameter_Texture, hb, ne_eq, not_false_eq_true, if_true, hloc, hf, hkey,
    replaced]

/-- The calls of a lookup: none, or the one query. -/
theorem getParamLocation_calls (d : Driver) (name : String) (s : Shader) (w : World) :
    (Shader.getParamLocation d name s w).2.2.calls = w.calls ∨
      (Shader.getParamLocation d name s w).2.2.calls =
        w.calls ++ [GLCall.getUniformLocation s.m_shaderProgram name
          (d.uniformLocation w.calls s.m_shaderProgram name)] := by
  cases hl : s.m_params.lookup name with
  | some loc => left; simp [Shader.getParamLocation, hl]
  | none => right; exact (getParamLocation_of_not_cached d name s w hl).2.2

/-- No overload of `setParameter` changes the handle. -/
theorem setParameter_handle (d : Driver) (name : String) (value : Shader.Value) (s : Shader)
    (w : World) : (Shader.setParameter d name value s w).1.m_shaderProgram = s.m_shaderProgram := by
  by_cases h0 : s.m_shaderProgram = 0
  · rw [setParameter_of_unbuilt d name value s w h0]
  · cases value with
    | Texture texture =>
      have hf := (getParamLocation_frame d name s w).1
      simp only [Shader.setParameter, Shader.setParameter_Texture, h0, ne_eq, not_false_eq_true,
        if_true]
      split
      · split
        · split <;> exact hf
        · exact hf
      · exact hf
    | CurrentTexture =>
      simp only [Shader.setParameter, Shader.setParameter_CurrentTexture, h0, ne_eq,
        not_false_eq_true, if_true]
      exact (getParamLocation_frame d name s w).1
    | _ =>
      simp only [Shader.setParameter, Shader.setParameter_float, Shader.setParameter_float2,
        Shader.setParameter_float3, Shader.setParameter_float4, Shader.setParameter_Vector2f,
        Shader.setParameter_Vector3f, Shader.setParameter_Color, Shader.setParameter_Transform,
        h0, ne_eq, not_false_eq_true, if_true]
      exact (getParamLocation_frame d name _ _).1

/-- No overload of `setParameter` stores the key -1 in the texture table. -/
theorem setParameter_keysValid (d : Driver) (name : String) (value : Shader.Value) (s : Shader)
    (w : World) (h : s.keysValid) : (Shader.setParameter d name value s w).1.keysValid := by
  by_cases h0 : s.m_shaderProgram = 0
  · rw [setParameter_of_unbuilt d name value s w h0]; exact h
  · cases value with
    | Texture texture =>
      have hf := (getParamLocation_frame d name s w).2.1
      simp only [Shader.setParameter, Shader.setParameter_Texture, h0, ne_eq, not_false_eq_true,
        if_true]
      split
      · next hloc =>
        split
        · split
          · intro e he; exact h e (hf ▸ he)
          · intro e he
            simp only [List.mem_cons] at he
            rcases he with he | he
            · rw [he]; exact hloc
            · exact h e (hf ▸ he)
        · intro e he
          simp only [List.mem_map] at he
          obtain ⟨e0, he0, heq⟩ := he
          have h1 := h e0 (hf ▸ he0)
          split at heq <;> (rw [← heq]; exact h1)
      · intro e he; exact h e (hf ▸ he)
    | CurrentTexture =>
      simp only [Shader.setParameter, Shader.setParameter_CurrentTexture, h0, ne_eq,
        not_false_eq_true, if_true]
      intro e he
      exact h e ((getParamLocation_frame d name s w).2.1 ▸ he)
    | _ =>
      simp only [Shader.setParameter, Shader.setParameter_float, Shader.setParameter_float2,
        Shader.setParameter_float3, Shader.setParameter_float4, Shader.setParameter_Vector2f,
        Shader.setParameter_Vector3f, Shader.setParameter_Color, Shader.setParameter_Transform,
        h0, ne_eq, not_false_eq_true, if_true]
      intro e he
      exact h e ((getParamLocation_frame d name _ _).2.1 ▸ he)

/-- The texture table after `compile`: emptied, or (no source compiler) as before. -/
theorem compile_textures (EMULATION : Bool) (d : Driver) (v f : Option String) (s : Shader)
    (w : World) :
    (Shader.compile EMULATION d v f s w).2.1.m_textures = [] ∨
      (Shader.compile EMULATION d v f s w).2.1.m_textures = s.m_textures := by
  cases EMULATION with
  | true => exact Or.inl (compile_resets d v f s w).2.1
  | false => right; simp [Shader.compile, Shader.isAvailable]

/-- The texture table after `loadBinary`: emptied, or (no binary loader) as before. -/
theorem loadBinary_textures (EMULATION : Bool) (d : Driver) (data : List Char) (size : Nat)
    (type : ShaderType) (s : Shader) (w : World) :
    (Shader.loadBinary EMULATION d data size type s w).2.1.m_textures = [] ∨
      (Shader.loadBinary EMULATION d data size type s w).2.1.m_textures = s.m_textures := by
  cases EMULATION <;> simp [Shader.loadBinary]

theorem loadFromFile_textures (EMULATION : Bool) (d : Driver) (files : FileSystem)
    (filename : String) (type : ShaderType) (s : Shader) (w : World) :
    (Shader.loadFromFile EMULATION d files filename type s w).2.1.m_textures = [] ∨
      (Shader.loadFromFile EMULATION d files filename type s w).2.1.m_textures = s.m_textures := by
  cases EMULATION <;>
    simp only [Shader.loadFromFile, if_true, if_false, Bool.false_eq_true] <;> split_ifs <;>
    first
      | exact Or.inr rfl
      | exact compile_textures _ _ _ _ _ _
      | exact loadBinary_textures _ _ _ _ _ _ _

/-- Every operation keeps the key -1 out of the texture table. -/
theorem step_keysValid (env : Env) (op : Op) (s : Shader) (w : World) (h : s.keysValid) :
    (op.step env s w).1.keysValid := by
  have hor : ∀ (t : Shader), (t.m_textures = [] ∨ t.m_textures = s.m_textures) → t.keysValid := by
    intro t ht e he
    rcases ht with ht | ht
    · rw [ht] at he; cases he
    · exact h e (ht ▸ he)
  cases op with
  | loadFromFile filename type => exact hor _ (loadFromFile_textures _ _ _ _ _ _ _)
  | setParameter name value => exact setParameter_keysValid env.d name value s w h
  | compile v f => exact hor _ (compile_textures _ _ _ _ _ _)
  | loadBinary data size type => exact hor _ (loadBinary_textures _ _ _ _ _ _ _)
  | getParamLocation name => exact hor _ (Or.inr (getParamLocation_frame env.d name s w).2.1)
  | _ => exact h

theorem run_keysValid (env : Env) (ops : List Op) :
    ∀ (s : Shader) (w : World), s.keysValid → (run env ops s w).1.keysValid := by
  induction ops with
  | nil => intro s w h; exact h
  | cons op rest ih => intro s w h; exact ih _ _ (step_keysValid env op s w h)

theorem constructor_keysValid : Shader.Shader.keysValid := by
  intro e he
  cases he

/-- C5: let `s` be a built object reached from the constructor by any operations, and
let `name` resolve to a location that is a key of its texture table.  Then
`setParameter(name, texture)` replaces the texture at that location: the location maps
to the new texture, every other key maps to what it mapped to, the keys and the size
of the table are unchanged, no diagnostic is written, and the only driver call that can
be made is the location query of the lookup (the texture-unit maximum is not asked
for), whatever the driver and the size of the table are. -/
theorem C5_replace_registered_texture (env : Env) (ops : List Op) (w0 : World) (d : Driver)
    (name : String) (texture old : Texture) (s : Shader) (w : World)
    (hs : s = (run env ops Shader.Shader w0).1) (hb : s.m_shaderProgram ≠ 0)
    (hkey : s.m_textures.lookup (Shader.getParamLocation d name s w).1 = some old) :
    (Shader.setParameter_Texture d name texture s w).1.m_textures =
        replaced (Shader.getParamLocation d name s w).1 texture s.m_textures ∧
      (Shader.setParameter_Texture d name texture s w).1.m_textures.lookup
          (Shader.getParamLocation d name s w).1 = some texture ∧
      (∀ k, k ≠ (Shader.getParamLocation d name s w).1 →
        (Shader.setParameter_Texture d name texture s w).1.m_textures.lookup k =
          s.m_textures.lookup k) ∧
      (Shader.setParameter_Texture d name texture s w).1.m_textures.map Prod.fst =
        s.m_textures.map Prod.fst ∧
      (Shader.setParameter_Texture d name texture s w).1.m_textures.length =
        s.m_textures.length ∧
      (Shader.setParameter_Texture d name texture s w).2.err = w.err ∧
      ((Shader.setParameter_Texture d name texture s w).2.calls = w.calls ∨
        (Shader.setParameter_Texture d name texture s w).2.calls =
          w.calls ++ [GLCall.getUniformLocation s.m_shaderProgram name
            (d.uniformLocation w.calls s.m_shaderProgram name)]) := by
  have hvalid : s.keysValid := by
    rw [hs]; exact run_keysValid env ops _ w0 constructor_keysValid
  have hloc : (Shader.getParamLocation d name s w).1 ≠ -1 :=
    hvalid _ (lookup_mem _ _ _ hkey)
  rw [setParameter_Texture_replace d name texture old s w hb hloc hkey]
  refine ⟨rfl, lookup_replaced_same _ _ _ _ hkey, fun k hk => lookup_replaced_other _ _ _ _ hk,
    replaced_keys _ _ _, ?_, getParamLocation_err d name s w hloc, getParamLocation_calls d name s w⟩
  simp [replaced]

/-- Witness of C5: an object is compiled and a texture registered for `a` (location 2);
then, with a driver that reports 0 texture units, another texture is set for `a`. -/
theorem C5_replace_registered_texture_witness :
    (run { EMULATION := true, d := exampleDriver, files := fun _ => none,
           Default := Shader.Shader }
        [Op.compile (some "uniform sampler2D a;") none,
          Op.setParameter "a" (Shader.Value.Texture { address := 1 })]
        Shader.Shader World.empty).1.m_textures = [(2, { address := 1 })] ∧
      (Shader.setParameter_Texture
        { exampleDriver with maxCombinedTextureImageUnits := fun _ => 0 } "a" { address := 2 }
        (run { EMULATION := true, d := exampleDriver, files := fun _ => none,
               Default := Shader.Shader }
          [Op.compile (some "uniform sampler2D a;") none,
            Op.setParameter "a" (Shader.Value.Texture { address := 1 })]
          Shader.Shader World.empty).1 World.empty).1.m_textures.lookup 2 =
        some { address := 2 } := by
  have h := C5_replace_registered_texture
    { EMULATION := true, d := exampleDriver, files := fun _ => none, Default := Shader.Shader }
    [Op.compile (some "uniform sampler2D a;") none,
      Op.setParameter "a" (Shader.Value.Texture { address := 1 })]
    World.empty { exampleDriver with maxCombinedTextureImageUnits := fun _ => 0 } "a"
    { address := 2 } { address := 1 } _ World.empty rfl (by decide) (by decide)
  exact ⟨by decide, h.2.1⟩

theorem enableProgram_calls (d : Driver) (s : Shader) (w : World) :
    (enableProgram d s w).calls =
      w.calls ++ [GLCall.getIntegerv GLenum.GL_CURRENT_PROGRAM (toGLint (currentProgram d w.calls)),
        GLCall.useProgram s.m_shaderProgram] := by
  simp [enableProgram, glUseProgram, glGetIntegerv, World.call]

theorem enableProgram_err (d : Driver) (s : Shader) (w : World) :
    (enableProgram d s w).err = w.err := rfl

/-- What an overload other than the texture ones does on a built object: the block
`Enable program`, the lookup, the uniform call if the location is not -1, and the
block `Disable program`. -/
theorem setParameter_built (d : Driver) (name : String) (value : Shader.Value) (s : Shader)
    (w : World) (hb : s.m_shaderProgram ≠ 0) (hv : value.isTexture = false) :
    (Shader.setParameter d name value s w).1 =
        (Shader.getParamLocation d name s (enableProgram d s w)).2.1 ∧
      (Shader.setParameter d name value s w).2.calls =
        (Shader.getParamLocation d name s (enableProgram d s w)).2.2.calls ++
          (if (Shader.getParamLocation d name s (enableProgram d s w)).1 ≠ -1 then
            uniformCall (Shader.getParamLocation d name s (enableProgram d s w)).1 value
           else []) ++
          [GLCall.useProgram (toGLuint (toGLint (currentProgram d w.calls)))] ∧
      (Shader.setParameter d name value s w).2.err =
        (Shader.getParamLocation d name s (enableProgram d s w)).2.2.err := by
  have hP : (glGetIntegerv d GLenum.GL_CURRENT_PROGRAM w).1 = toGLint (currentProgram d w.calls) :=
    rfl
  cases value <;> simp only [Shader.Value.isTexture, Bool.true_eq_false] at hv <;>
    simp only [Shader.setParameter, Shader.setParameter_float, Shader.setParameter_float2,
      Shader.setParameter_float3, Shader.setParameter_float4, Shader.setParameter_Vector2f,
      Shader.setParameter_Vector3f, Shader.setParameter_Color, Shader.setParameter_Transform,
      hb, ne_eq, not_false_eq_true, if_true, uniformCall, enableProgram, hP] <;>
    generalize Shader.getParamLocation d name s
      (glUseProgram s.m_shaderProgram (glGetIntegerv d GLenum.GL_CURRENT_PROGRAM w).2) = L <;>
    by_cases hL : L.1 = -1 <;>
    simp [hL, glUseProgram, World.call, glUniform1f, glUniform2f, glUniform3f, glUniform4f,
      glUniformMatrix4fv]

/-- The calls an overload other than the texture ones adds on a built object, in order:
read the current program, use the program of the object, the location query `q` of
the lookup if the name is not cached, the uniform call if the location is not -1, use
the program that was read. -/
theorem setParameter_new_calls (d : Driver) (name : String) (value : Shader.Value) (s : Shader)
    (w : World) (hb : s.m_shaderProgram ≠ 0) (hv : value.isTexture = false) :
    ∃ q : List GLCall,
      (q = [] ∨ q = [GLCall.getUniformLocation s.m_shaderProgram name
        (d.uniformLocation (enableProgram d s w).calls s.m_shaderProgram name)]) ∧
      (Shader.setParameter d name value s w).2.calls =
        w.calls ++
          ([GLCall.getIntegerv GLenum.GL_CURRENT_PROGRAM (toGLint (currentProgram d w.calls)),
              GLCall.useProgram s.m_shaderProgram] ++ q ++
            (if (Shader.getParamLocation d name s (enableProgram d s w)).1 ≠ -1 then
              uniformCall (Shader.getParamLocation d name s (enableProgram d s w)).1 value
             else []) ++
            [GLCall.useProgram (toGLuint (toGLint (currentProgram d w.calls)))]) := by
  have h := (setParameter_built d name value s w hb hv).2.1
  rcases getParamLocation_calls d name s (enableProgram d s w) with hc | hc
  · refine ⟨[], Or.inl rfl, ?_⟩
    rw [h, hc, enableProgram_calls]
    simp
  · refine ⟨_, Or.inr rfl, ?_⟩
    rw [h, hc, enableProgram_calls]
    simp

set_option maxRecDepth 100000 in
/-- The value `floatDiv x 255` of a channel `x`: it lies in [0, 1] and within `2 ^ -25`
of the exact quotient `x / 255`. -/
theorem floatDiv_byte (x : Fin 256) :
    0 ≤ floatDiv x.val 255 ∧ floatDiv x.val 255 ≤ 1 ∧
      |floatDiv x.val 255 - (x.val : ℚ) / 255| ≤ 1 / 33554432 := by
  have hnat : ∀ y : Fin 256,
      y.val < 255 * 2 ^ 24 ∧
      halfEven (y.val * 2 ^ upShift 149 y.val 255) 255 ≤ 2 ^ upShift 149 y.val 255 ∧
      halfEven (y.val * 2 ^ upShift 149 y.val 255) 255 * 255 * 33554432 ≤
        y.val * 2 ^ upShift 149 y.val 255 * 33554432 + 255 * 2 ^ upShift 149 y.val 255 ∧
      y.val * 2 ^ upShift 149 y.val 255 * 33554432 ≤
        halfEven (y.val * 2 ^ upShift 149 y.val 255) 255 * 255 * 33554432 +
          255 * 2 ^ upShift 149 y.val 255 := by
    decide
  obtain ⟨h0, h1, h2, h3⟩ := hnat x
  have hp : 0 < 2 ^ upShift 149 x.val 255 := Nat.two_pow_pos _
  unfold floatDiv
  rw [if_pos h0]
  generalize halfEven (x.val * 2 ^ upShift 149 x.val 255) 255 = m at h1 h2 h3 ⊢
  generalize 2 ^ upShift 149 x.val 255 = p at h1 h2 h3 hp ⊢
  have hpq : (0 : ℚ) < (p : ℚ) := by exact_mod_cast hp
  have h1q : (m : ℚ) ≤ (p : ℚ) := by exact_mod_cast h1
  have h2q : (m : ℚ) * 255 * 33554432 ≤ (x.val : ℚ) * p * 33554432 + 255 * p := by
    exact_mod_cast h2
  have h3q : (x.val : ℚ) * p * 33554432 ≤ (m : ℚ) * 255 * 33554432 + 255 * p := by
    exact_mod_cast h3
  have e : (m : ℚ) / p - (x.val : ℚ) / 255 = ((m : ℚ) * 255 - x.val * p) / (p * 255) := by
    field_simp
    ring
  refine ⟨div_nonneg (Nat.cast_nonneg m) hpq.le, (div_le_one hpq).mpr h1q, ?_⟩
  rw [e, abs_le]
  constructor
  · rw [le_div_iff₀ (by positivity)]
    linarith
  · rw [div_le_iff₀ (by positivity)]
    linarith

set_option maxRecDepth 100000 in
/-- The values of the channels 255, 0, 128 and 64 divided by `255.f`. -/
theorem floatDiv_examples :
    floatDiv 255 255 = 1 ∧ floatDiv 0 255 = 0 ∧ floatDiv 128 255 = 8421505 / 16777216 ∧
      floatDiv 64 255 = 8421505 / 33554432 := by
  have h255 : halfEven (255 * 2 ^ upShift 149 255 255) 255 = 8388608 ∧
      2 ^ upShift 149 255 255 = 8388608 := by decide
  have h0 : halfEven (0 * 2 ^ upShift 149 0 255) 255 = 0 := by decide
  have h128 : halfEven (128 * 2 ^ upShift 149 128 255) 255 = 8421505 ∧
      2 ^ upShift 149 128 255 = 16777216 := by decide
  have h64 : halfEven (64 * 2 ^ upShift 149 64 255) 255 = 8421505 ∧
      2 ^ upShift 149 64 255 = 33554432 := by decide
  refine ⟨?_, ?_, ?_, ?_⟩
  · unfold floatDiv
    rw [if_pos (by decide), h255.1, h255.2]
    norm_num
  · unfold floatDiv
    rw [if_pos (by decide), h0]
    norm_num
  · unfold floatDiv
    rw [if_pos (by decide), h128.1, h128.2]
    norm_num
  · unfold floatDiv
    rw [if_pos (by decide), h64.1, h64.2]
    norm_num

/-- The uniform-set calls that `setParameter(name, color)` adds on a built object in
which `name` resolves to `L`, not -1. -/
theorem setParameter_Color_uniform (d : Driver) (name : String) (color : Color) (s : Shader)
    (w : World) (L : Int) (hb : s.m_shaderProgram ≠ 0)
    (hL : (Shader.getParamLocation d name s (enableProgram d s w)).1 = L) (hne : L ≠ -1) :
    ((Shader.setParameter_Color d name color s w).2.calls.drop w.calls.length).filter
        GLCall.isUniformSet =
      [GLCall.uniform4f L (floatDiv color.r.val 255) (floatDiv color.g.val 255)
        (floatDiv color.b.val 255) (floatDiv color.a.val 255)] := by
  obtain ⟨q, hq, hc⟩ := setParameter_new_calls d name (Shader.Value.Color color) s w hb rfl
  have hc2 : (Shader.setParameter_Color d name color s w).2.calls = _ := hc
  rw [hc2, List.drop_left, hL, if_pos hne]
  rcases hq with hq | hq <;> rw [hq] <;>
    simp [List.filter, GLCall.isUniformSet, uniformCall]

/-- C6 as the code has it: on a built object in which `name` resolves to a location `L`
other than -1, `setParameter(name, color)` makes exactly one uniform-set call,
`glUniform4f` at `L`, whose four values are the channels divided by 255 in 32-bit float
arithmetic (`floatDiv`): each value lies in [0, 1] and within `2 ^ -25` of the exact
quotient.  For the colour (255, 0, 128, 64) the values are 1, 0, 8421505 / 2 ^ 24 and
8421505 / 2 ^ 25, each within 0.0005 of 1.0, 0.0, 0.502 and 0.251. -/
theorem C6_color_normalized_float (d : Driver) (name : String) (color : Color) (s : Shader)
    (w : World) (L : Int) (hb : s.m_shaderProgram ≠ 0)
    (hL : (Shader.getParamLocation d name s (enableProgram d s w)).1 = L) (hne : L ≠ -1) :
    ((Shader.setParameter_Color d name color s w).2.calls.drop w.calls.length).filter
        GLCall.isUniformSet =
        [GLCall.uniform4f L (floatDiv color.r.val 255) (floatDiv color.g.val 255)
          (floatDiv color.b.val 255) (floatDiv color.a.val 255)] ∧
      (∀ x : Fin 256, 0 ≤ floatDiv x.val 255 ∧ floatDiv x.val 255 ≤ 1 ∧
        |floatDiv x.val 255 - (x.val : ℚ) / 255| ≤ 1 / 33554432) ∧
      ((Shader.setParameter_Color d name { r := 255, g := 0, b := 128, a := 64 } s
          w).2.calls.drop w.calls.length).filter GLCall.isUniformSet =
        [GLCall.uniform4f L 1 0 (8421505 / 16777216) (8421505 / 33554432)] ∧
      |(1 : ℚ) - 1| ≤ 5 / 10000 ∧ |(0 : ℚ) - 0| ≤ 5 / 10000 ∧
      |(8421505 / 16777216 : ℚ) - 502 / 1000| ≤ 5 / 10000 ∧
      |(8421505 / 33554432 : ℚ) - 251 / 1000| ≤ 5 / 10000 := by
  refine ⟨setParameter_Color_uniform d name color s w L hb hL hne, floatDiv_byte, ?_, ?_, ?_,
    ?_, ?_⟩
  · have h := setParameter_Color_uniform d name { r := 255, g := 0, b := 128, a := 64 } s w L
      hb hL hne
    have e255 : ((255 : Fin 256) : ℕ) = 255 := rfl
    have e0 : ((0 : Fin 256) : ℕ) = 0 := rfl
    have e128 : ((128 : Fin 256) : ℕ) = 128 := rfl
    have e64 : ((64 : Fin 256) : ℕ) = 64 := rfl
    obtain ⟨f255, f0, f128, f64⟩ := floatDiv_examples
    rw [h]
    simp only [e255, e0, e128, e64, f255, f0, f128, f64]
  · norm_num
  · norm_num
  · rw [abs_le]; constructor <;> norm_num
  · rw [abs_le]; constructor <;> norm_num

/-- Witness of C6 as the code has it: the colour (255, 0, 128, 64) set for `u_color` on
program 1, where the example driver places it at location 8. -/
theorem C6_color_normalized_float_witness :
    builtEmpty.m_shaderProgram ≠ 0 ∧
      ((Shader.setParameter_Color exampleDriver "u_color" { r := 255, g := 0, b := 128, a := 64 }
          builtEmpty World.empty).2.calls.drop World.empty.calls.length).filter
        GLCall.isUniformSet =
        [GLCall.uniform4f 8 1 0 (8421505 / 16777216) (8421505 / 33554432)] :=
  ⟨by decide,
   (C6_color_normalized_float exampleDriver "u_color" { r := 255, g := 0, b := 128, a := 64 }
      builtEmpty World.empty 8 (by decide) (by decide) (by decide)).2.2.1⟩

/-- C6 as stated fails: for the colour (255, 0, 128, 64), set for `u_color` on program 1
with the example driver (location 8), the one uniform-set call is not `glUniform4f` with
the exact quotients 1, 0, 128 / 255 and 64 / 255: the third value pushed is the float
8421505 / 2 ^ 24, which is not 128 / 255. -/
theorem C6_exact_quotient_counterexample :
    ((Shader.setParameter_Color exampleDriver "u_color" { r := 255, g := 0, b := 128, a := 64 }
        builtEmpty World.empty).2.calls.drop World.empty.calls.length).filter
      GLCall.isUniformSet ≠ [GLCall.uniform4f 8 1 0 (128 / 255) (64 / 255)] := by
  have h := setParameter_Color_uniform exampleDriver "u_color"
    { r := 255, g := 0, b := 128, a := 64 } builtEmpty World.empty 8 (by decide) (by decide)
    (by decide)
  have e128 : ((128 : Fin 256) : ℕ) = 128 := rfl
  obtain ⟨_, _, f128, _⟩ := floatDiv_examples
  rw [h]
  intro heq
  simp only [List.cons.injEq, GLCall.uniform4f.injEq, e128, f128] at heq
  have h3 := heq.1.2.2.2.1
  norm_num at h3

/-- What `compile` does in the source-compile configuration.  The calls it adds to the
transcript are `new`: they delete the previous program if there was one; when the
result is false the handle is 0; when it is true the handle is the program object
created in this call, for which the driver reported a link status other than
`GL_FALSE`, and every compile status reported in this call was a success. -/
theorem compile_outcome (d : Driver) (v f : Option String) (s : Shader) (w : World) :
    ∃ new : List GLCall,
      (Shader.compile true d v f s w).2.2.calls = w.calls ++ new ∧
      (s.m_shaderProgram ≠ 0 → GLCall.deleteObject s.m_shaderProgram ∈ new) ∧
      ((Shader.compile true d v f s w).1 = false →
        (Shader.compile true d v f s w).2.1.m_shaderProgram = 0) ∧
      ((Shader.compile true d v f s w).1 = true →
        GLCall.createProgramObject (Shader.compile true d v f s w).2.1.m_shaderProgram ∈ new ∧
        (∃ status, status ≠ GL_FALSE ∧
          GLCall.getObjectParameteriv (Shader.compile true d v f s w).2.1.m_shaderProgram
            GLenum.GL_OBJECT_LINK_STATUS_ARB status ∈ new) ∧
        (∀ shader status,
          GLCall.getObjectParameteriv shader GLenum.GL_OBJECT_COMPILE_STATUS_ARB status ∈ new →
            status ≠ GL_FALSE)) := by
  cases v <;> simp only [Shader.compile, Shader.isAvailable, Bool.not_true, Bool.false_eq_true,
    if_false, if_true] <;> split_ifs <;> simp only [] <;> (try split_ifs) <;>
    simp_all [glDeleteObjectARB, glCreateProgramObjectARB, glCreateShaderObjectARB, glShaderSource,
      glCompileShader, glGetObjectParameterivARB, glGetInfoLogARB, glAttachObjectARB,
      glLinkProgram, glFlush, World.call, World.report]

theorem compile_linkedOrNull (d : Driver) (v f : Option String) (s : Shader) (w : World) :
    linkedOrNull (Shader.compile true d v f s w).2.1 (Shader.compile true d v f s w).2.2 := by
  obtain ⟨new, hc, _, hfalse, htrue⟩ := compile_outcome d v f s w
  cases hr : (Shader.compile true d v f s w).1 with
  | false => exact Or.inl (hfalse hr)
  | true =>
    obtain ⟨_, ⟨status, hne, hmem⟩, _⟩ := htrue hr
    exact Or.inr ⟨status, hne, by rw [hc]; exact List.mem_append_right _ hmem⟩

/-- Every overload of `setParameter` only appends to the transcript. -/
theorem setParameter_appends (d : Driver) (name : String) (value : Shader.Value) (s : Shader)
    (w : World) : ∃ new, (Shader.setParameter d name value s w).2.calls = w.calls ++ new := by
  by_cases h0 : s.m_shaderProgram = 0
  · rw [setParameter_of_unbuilt d name value s w h0]; exact ⟨[], by simp⟩
  · cases hv : value.isTexture with
    | false =>
      obtain ⟨q, _, hq⟩ := setParameter_new_calls d name value s w h0 hv
      exact ⟨_, hq⟩
    | true =>
      have hg : ∃ q, (Shader.getParamLocation d name s w).2.2.calls = w.calls ++ q := by
        rcases getParamLocation_calls d name s w with h | h
        · exact ⟨[], by simp [h]⟩
        · exact ⟨_, h⟩
      obtain ⟨q, hq⟩ := hg
      cases value <;> simp only [Shader.Value.isTexture, Bool.false_eq_true] at hv
      · simp only [Shader.setParameter, Shader.setParameter_Texture, h0, ne_eq,
          not_false_eq_true, if_true]
        split
        · split
          · split
            · exact ⟨q ++ [GLCall.getIntegerv GLenum.GL_MAX_COMBINED_TEXTURE_IMAGE_UNITS
                (d.maxCombinedTextureImageUnits (Shader.getParamLocation d name s w).2.2.calls)],
                by simp [World.report, glGetIntegerv, World.call, hq]⟩
            · exact ⟨q ++ [GLCall.getIntegerv GLenum.GL_MAX_COMBINED_TEXTURE_IMAGE_UNITS
                (d.maxCombinedTextureImageUnits (Shader.getParamLocation d name s w).2.2.calls)],
                by simp [glGetIntegerv, World.call, hq]⟩
          · exact ⟨q, hq⟩
        · exact ⟨q, hq⟩
      · simp only [Shader.setParameter, Shader.setParameter_CurrentTexture, h0, ne_eq,
          not_false_eq_true, if_true]
        exact ⟨q, hq⟩

theorem linkedOrNull_of_appends (s s1 : Shader) (w w1 : World)
    (hh : s1.m_shaderProgram = s.m_shaderProgram) (hc : ∃ new, w1.calls = w.calls ++ new)
    (h : linkedOrNull s w) : linkedOrNull s1 w1 := by
  obtain ⟨new, hc⟩ := hc
  rcases h with h | ⟨status, hne, hmem⟩
  · exact Or.inl (hh.trans h)
  · exact Or.inr ⟨status, hne, by rw [hh, hc]; exact List.mem_append_left _ hmem⟩

/-- In the source-compile configuration every operation keeps `linkedOrNull`. -/
theorem step_linkedOrNull (env : Env) (hE : env.EMULATION = true) (op : Op) (s : Shader)
    (w : World) (h : linkedOrNull s w) : linkedOrNull (op.step env s w).1 (op.step env s w).2 := by
  cases op with
  | loadFromFile filename type =>
    simp only [Op.step, Shader.loadFromFile, hE, if_true]
    split_ifs
    · exact linkedOrNull_of_appends s _ w _ rfl ⟨[], by simp [World.report]⟩ h
    · exact compile_linkedOrNull _ _ _ _ _
    · exact compile_linkedOrNull _ _ _ _ _
  | setParameter name value =>
    exact linkedOrNull_of_appends s _ w _ (setParameter_handle env.d name value s w)
      (setParameter_appends env.d name value s w) h
  | compile v f =>
    simp only [Op.step, hE]
    exact compile_linkedOrNull _ _ _ _ _
  | loadBinary data size type =>
    simp only [Op.step, hE, Shader.loadBinary]
    exact h
  | getParamLocation name =>
    refine linkedOrNull_of_appends s _ w _ (getParamLocation_frame env.d name s w).1 ?_ h
    rcases getParamLocation_calls env.d name s w with hc | hc
    · exact ⟨[], by simp [Op.step, hc]⟩
    · exact ⟨_, hc⟩
  | bindThis =>
    obtain ⟨p, hp⟩ := bind_calls env.EMULATION env.Default (some s) w
    exact linkedOrNull_of_appends s _ w _ rfl ⟨_, hp⟩ h
  | bindNull =>
    obtain ⟨p, hp⟩ := bind_calls env.EMULATION env.Default none w
    exact linkedOrNull_of_appends s _ w _ rfl ⟨_, hp⟩ h
  | _ => exact h

theorem run_linkedOrNull (env : Env) (hE : env.EMULATION = true) (ops : List Op) :
    ∀ (s : Shader) (w : World), linkedOrNull s w →
      linkedOrNull (run env ops s w).1 (run env ops s w).2 := by
  induction ops with
  | nil => intro s w h; exact h
  | cons op rest ih => intro s w h; exact ih _ _ (step_linkedOrNull env hE op s w h)

/-- C7: in the source-compile configuration (`EMULATION` defined), for every object
`s`, also a built one: when `compile` returns false the handle is 0, the parameter
cache and the texture table are empty, the current-texture slot is -1 and the previous
program, if there was one, has been deleted in this call; when it returns true the
handle is the program object created in this call, the driver reported for it a link
status other than `GL_FALSE`, and every compile status reported in this call was a
success.  Hence after any sequence of operations from the constructor the handle is 0
or a program for which the driver reported a successful link. -/
theorem C7_handle_null_or_linked (env : Env) (v f : Option String) (s : Shader) (w w0 : World)
    (ops : List Op) (hE : env.EMULATION = true) :
    ((Shader.compile env.EMULATION env.d v f s w).1 = false →
        (Shader.compile env.EMULATION env.d v f s w).2.1.m_shaderProgram = 0 ∧
        (Shader.compile env.EMULATION env.d v f s w).2.1.m_params = [] ∧
        (Shader.compile env.EMULATION env.d v f s w).2.1.m_textures = [] ∧
        (Shader.compile env.EMULATION env.d v f s w).2.1.m_currentTexture = -1 ∧
        (s.m_shaderProgram ≠ 0 →
          GLCall.deleteObject s.m_shaderProgram ∈
            (Shader.compile env.EMULATION env.d v f s w).2.2.calls.drop w.calls.length)) ∧
      ((Shader.compile env.EMULATION env.d v f s w).1 = true →
        GLCall.createProgramObject
            (Shader.compile env.EMULATION env.d v f s w).2.1.getNativeHandle ∈
          (Shader.compile env.EMULATION env.d v f s w).2.2.calls.drop w.calls.length ∧
        (∃ status, status ≠ GL_FALSE ∧
          GLCall.getObjectParameteriv
              (Shader.compile env.EMULATION env.d v f s w).2.1.getNativeHandle
              GLenum.GL_OBJECT_LINK_STATUS_ARB status ∈
            (Shader.compile env.EMULATION env.d v f s w).2.2.calls.drop w.calls.length) ∧
        (∀ shader status,
          GLCall.getObjectParameteriv shader GLenum.GL_OBJECT_COMPILE_STATUS_ARB status ∈
              (Shader.compile env.EMULATION env.d v f s w).2.2.calls.drop w.calls.length →
            status ≠ GL_FALSE)) ∧
      linkedOrNull (run env ops Shader.Shader w0).1 (run env ops Shader.Shader w0).2 := by
  rw [hE]
  obtain ⟨new, hc, hdel, hfalse, htrue⟩ := compile_outcome env.d v f s w
  obtain ⟨hp, ht, hcur, _⟩ := compile_resets env.d v f s w
  have hdrop : (Shader.compile true env.d v f s w).2.2.calls.drop w.calls.length = new := by
    rw [hc, List.drop_left]
  rw [hdrop]
  exact ⟨fun hr => ⟨hfalse hr, hp, ht, hcur, hdel⟩, htrue,
    run_linkedOrNull env hE ops _ w0 (Or.inl rfl)⟩

/-- Witness of C7: `builtBefore` (program 1) is compiled with a vertex source the
example driver rejects; the result is false and the handle is 0. -/
theorem C7_handle_null_or_linked_witness :
    (Shader.compile true exampleDriver (some "garbage") none builtBefore World.empty).1 = false ∧
      (Shader.compile true exampleDriver (some "garbage") none builtBefore
        World.empty).2.1.m_shaderProgram = 0 := by
  have hr : (Shader.compile true exampleDriver (some "garbage") none builtBefore
      World.empty).1 = false := by decide
  exact ⟨hr, ((C7_handle_null_or_linked
    { EMULATION := true, d := exampleDriver, files := fun _ => none, Default := Shader.Shader }
    (some "garbage") none builtBefore World.empty World.empty [] rfl).1 hr).1⟩

/-- In the source-compile configuration a `compile` that returns false has been told
`GL_FALSE` by the driver for a status it asked in this call, and a `compile` that
returns true has written no diagnostic. -/
theorem compile_result (d : Driver) (v f : Option String) (s : Shader) (w : World) :
    ((Shader.compile true d v f s w).1 = false →
        ∃ obj pname, GLCall.getObjectParameteriv obj pname GL_FALSE ∈
          (Shader.compile true d v f s w).2.2.calls.drop w.calls.length) ∧
      ((Shader.compile true d v f s w).1 = true →
        (Shader.compile true d v f s w).2.2.err = w.err) := by
  cases v <;> simp only [Shader.compile, Shader.isAvailable, Bool.not_true, Bool.false_eq_true,
    if_false, if_true] <;> split_ifs <;> simp only [] <;> (try split_ifs) <;>
    simp_all [glDeleteObjectARB, glCreateProgramObjectARB, glCreateShaderObjectARB, glShaderSource,
      glCompileShader, glGetObjectParameterivARB, glGetInfoLogARB, glAttachObjectARB,
      glLinkProgram, glFlush, World.call, World.report] <;>
    exact ⟨_, _, Or.inr ⟨rfl, rfl⟩⟩

/-- C8 (the code at the failing input): `compile` never reads its fragment argument, so
its result is the same for every fragment source.  The example driver rejects the
source `garbage` (as a vertex source it makes `compile` return false), yet `compile`
with `garbage` as the fragment source, directly or through `loadFromFile`, returns
true, leaves the handle at the created program 1 and writes no diagnostic. -/
theorem C8_fragment_source_never_compiled :
    (∀ (EMULATION : Bool) (d : Driver) (v f f1 : Option String) (s : Shader) (w : World),
        Shader.compile EMULATION d v f s w = Shader.compile EMULATION d v f1 s w) ∧
      (Shader.compile true exampleDriver (some "garbage") none Shader.Shader World.empty).1 =
        false ∧
      (Shader.compile true exampleDriver none (some "garbage") Shader.Shader World.empty).1 =
        true ∧
      (Shader.compile true exampleDriver none (some "garbage") Shader.Shader
        World.empty).2.1.getNativeHandle = 1 ∧
      (Shader.compile true exampleDriver none (some "garbage") Shader.Shader
        World.empty).2.2.err = [] ∧
      (Shader.loadFromFile true exampleDriver exampleFiles "bad" ShaderType.Fragment
        Shader.Shader World.empty).1 = true ∧
      (Shader.loadFromFile true exampleDriver exampleFiles "bad" ShaderType.Fragment
        Shader.Shader World.empty).2.1.getNativeHandle = 1 ∧
      (Shader.loadFromFile true exampleDriver exampleFiles "bad" ShaderType.Fragment
        Shader.Shader World.empty).2.2.err = [] := by
  refine ⟨fun _ _ _ _ _ _ _ => rfl, ?_, ?_, ?_, ?_, ?_, ?_, ?_⟩ <;> decide

/-- What `bind(shader)` does for a built object: one `glUseProgram` of its program,
then `bindTextures()` on it; no diagnostic. -/
theorem bind_built (EMULATION : Bool) (Default sh : Shader) (w : World)
    (hb : sh.m_shaderProgram ≠ 0) :
    (Shader.bind EMULATION Default (some sh) w).calls =
        w.calls ++ [GLCall.useProgram sh.m_shaderProgram] ∧
      (Shader.bind EMULATION Default (some sh) w).err = w.err := by
  simp [Shader.bind, Shader.isAvailable, hb, Shader.bindTextures, glUseProgram, World.call]

theorem countP_query (s : Shader) (d : Driver) (name : String) (w : World) (q : List GLCall)
    (hq : q = [] ∨ q = [GLCall.getUniformLocation s.m_shaderProgram name
      (d.uniformLocation w.calls s.m_shaderProgram name)]) :
    q.countP GLCall.isUseProgram = 0 ∧ q.countP GLCall.isUniformSet = 0 := by
  rcases hq with hq | hq <;> rw [hq] <;> simp [GLCall.isUseProgram, GLCall.isUniformSet]

/-- C9 as the code has it: when the driver, in a `compile` call with a vertex and a
fragment source (source-compile configuration), returns only non-zero program objects
and reports a success for every status it is asked, `compile` returns true and
`getNativeHandle()` is not 0; when moreover `u_color` resolves to a location other than
-1 in the built program, the sequence `setParameter("u_color", Color::Red)`,
`bind(program)` adds exactly three `glUseProgram` calls (two of `setParameter`, which
makes the program current and the previous one current again, one of `bind`) and
exactly one uniform-set call to the transcript, and no diagnostic is written by
`compile`, `setParameter` or `bind`. -/
theorem C9_compile_set_bind (d : Driver) (Default : Shader) (vs fs : String) (s : Shader)
    (w : World)
    (hprog : ∀ p, GLCall.createProgramObject p ∈
      (Shader.compile true d (some vs) (some fs) s w).2.2.calls.drop w.calls.length → p ≠ 0)
    (hok : ∀ obj pname status, GLCall.getObjectParameteriv obj pname status ∈
      (Shader.compile true d (some vs) (some fs) s w).2.2.calls.drop w.calls.length →
        status ≠ GL_FALSE)
    (hloc : (Shader.getParamLocation d "u_color"
      (Shader.compile true d (some vs) (some fs) s w).2.1
      (enableProgram d (Shader.compile true d (some vs) (some fs) s w).2.1
        (Shader.compile true d (some vs) (some fs) s w).2.2)).1 ≠ -1) :
    (Shader.compile true d (some vs) (some fs) s w).1 = true ∧
      (Shader.compile true d (some vs) (some fs) s w).2.1.getNativeHandle ≠ 0 ∧
      useProgramCalls
        ((Shader.bind true Default
            (some (Shader.setParameter d "u_color" (Shader.Value.Color Color.Red)
              (Shader.compile true d (some vs) (some fs) s w).2.1
              (Shader.compile true d (some vs) (some fs) s w).2.2).1)
            (Shader.setParameter d "u_color" (Shader.Value.Color Color.Red)
              (Shader.compile true d (some vs) (some fs) s w).2.1
              (Shader.compile true d (some vs) (some fs) s w).2.2).2).calls.drop
          (Shader.compile true d (some vs) (some fs) s w).2.2.calls.length) = 3 ∧
      uniformSetCalls
        ((Shader.bind true Default
            (some (Shader.setParameter d "u_color" (Shader.Value.Color Color.Red)
              (Shader.compile true d (some vs) (some fs) s w).2.1
              (Shader.compile true d (some vs) (some fs) s w).2.2).1)
            (Shader.setParameter d "u_color" (Shader.Value.Color Color.Red)
              (Shader.compile true d (some vs) (some fs) s w).2.1
              (Shader.compile true d (some vs) (some fs) s w).2.2).2).calls.drop
          (Shader.compile true d (some vs) (some fs) s w).2.2.calls.length) = 1 ∧
      (Shader.bind true Default
          (some (Shader.setParameter d "u_color" (Shader.Value.Color Color.Red)
            (Shader.compile true d (some vs) (some fs) s w).2.1
            (Shader.compile true d (some vs) (some fs) s w).2.2).1)
          (Shader.setParameter d "u_color" (Shader.Value.Color Color.Red)
            (Shader.compile true d (some vs) (some fs) s w).2.1
            (Shader.compile true d (some vs) (some fs) s w).2.2).2).err = w.err := by
  generalize hr : Shader.compile true d (some vs) (some fs) s w = r at hprog hok hloc ⊢
  have hres := compile_result d (some vs) (some fs) s w
  obtain ⟨new, hc, _, _, htrue⟩ := compile_outcome d (some vs) (some fs) s w
  rw [hr] at hres hc htrue
  have hdrop : r.2.2.calls.drop w.calls.length = new := by rw [hc, List.drop_left]
  rw [hdrop] at hprog hok
  have h1 : r.1 = true := by
    cases hb : r.1 with
    | true => rfl
    | false =>
      obtain ⟨obj, pname, hmem⟩ := hres.1 hb
      rw [hdrop] at hmem
      exact absurd rfl (hok obj pname GL_FALSE hmem)
  have h2 : r.2.1.m_shaderProgram ≠ 0 := hprog _ (htrue h1).1
  have hv : (Shader.Value.Color Color.Red).isTexture = false := rfl
  obtain ⟨q, hq, hcalls⟩ :=
    setParameter_new_calls d "u_color" (Shader.Value.Color Color.Red) r.2.1 r.2.2 h2 hv
  have hset := setParameter_built d "u_color" (Shader.Value.Color Color.Red) r.2.1 r.2.2 h2 hv
  have hh := setParameter_handle d "u_color" (Shader.Value.Color Color.Red) r.2.1 r.2.2
  have hbind := bind_built true Default
    (Shader.setParameter d "u_color" (Shader.Value.Color Color.Red) r.2.1 r.2.2).1
    (Shader.setParameter d "u_color" (Shader.Value.Color Color.Red) r.2.1 r.2.2).2
    (by rw [hh]; exact h2)
  obtain ⟨hq1, hq2⟩ := countP_query r.2.1 d "u_color" (enableProgram d r.2.1 r.2.2) q hq
  refine ⟨h1, h2, ?_, ?_, ?_⟩
  · rw [hbind.1, hcalls, if_pos hloc, List.append_assoc, List.drop_left]
    simp [useProgramCalls, List.countP_append, hq1, uniformCall, GLCall.isUseProgram,
      List.countP_cons]
  · rw [hbind.1, hcalls, if_pos hloc, List.append_assoc, List.drop_left]
    simp [uniformSetCalls, List.countP_append, hq2, uniformCall, GLCall.isUniformSet,
      List.countP_cons]
  · rw [hbind.2, hset.2.2, getParamLocation_err d "u_color" _ _ hloc, enableProgram_err]
    exact hres.2 h1

/-- The transcript of the example driver compiling a vertex and a fragment source. -/
theorem exampleDriver_compile_calls :
    (Shader.compile true exampleDriver (some "attribute vec4 p;") (some "uniform vec4 u_color;")
        Shader.Shader World.empty).2.2.calls.drop World.empty.calls.length =
      [GLCall.createProgramObject 1,
        GLCall.createShaderObject GLenum.GL_VERTEX_SHADER 2,
        GLCall.shaderSource 2 "attribute vec4 p;",
        GLCall.compileShader 2,
        GLCall.getObjectParameteriv 2 GLenum.GL_OBJECT_COMPILE_STATUS_ARB 1,
        GLCall.attachObject 1 2,
        GLCall.deleteObject 2,
        GLCall.linkProgram 1,
        GLCall.getObjectParameteriv 1 GLenum.GL_OBJECT_LINK_STATUS_ARB 1,
        GLCall.flush] := by
  decide

/-- Witness of C9 as the code has it, with the example driver. -/
theorem C9_compile_set_bind_witness :
    (Shader.compile true exampleDriver (some "attribute vec4 p;") (some "uniform vec4 u_color;")
        Shader.Shader World.empty).1 = true ∧
      (Shader.compile true exampleDriver (some "attribute vec4 p;")
        (some "uniform vec4 u_color;") Shader.Shader World.empty).2.1.getNativeHandle ≠ 0 := by
  have h := C9_compile_set_bind exampleDriver Shader.Shader "attribute vec4 p;"
    "uniform vec4 u_color;" Shader.Shader World.empty
    (by
      intro p hp
      rw [exampleDriver_compile_calls] at hp
      simp at hp
      omega)
    (by
      intro obj pname status hs
      rw [exampleDriver_compile_calls] at hs
      simp at hs
      rcases hs with ⟨_, _, h⟩ | ⟨_, _, h⟩ <;> rw [h] <;> decide)
    (by decide)
  exact ⟨h.1, h.2.1⟩

/-- C9 as stated fails: the example driver compiles and links the pair, returns the
non-zero program 1 and places `u_color` at location 8; `setParameter("u_color",
Color::Red)` followed by `bind(program)` then makes three `glUseProgram` calls, not
one (and one uniform-set call, and no diagnostic). -/
theorem C9_one_useProgram_counterexample :
    (Shader.compile true exampleDriver (some "attribute vec4 p;") (some "uniform vec4 u_color;")
        Shader.Shader World.empty).1 = true ∧
      (Shader.compile true exampleDriver (some "attribute vec4 p;")
        (some "uniform vec4 u_color;") Shader.Shader World.empty).2.1.getNativeHandle = 1 ∧
      exampleDriver.uniformLocation [] 1 "u_color" = 8 ∧
      useProgramCalls
        ((Shader.bind true Shader.Shader
            (some (Shader.setParameter exampleDriver "u_color" (Shader.Value.Color Color.Red)
              (Shader.compile true exampleDriver (some "attribute vec4 p;")
                (some "uniform vec4 u_color;") Shader.Shader World.empty).2.1
              (Shader.compile true exampleDriver (some "attribute vec4 p;")
                (some "uniform vec4 u_color;") Shader.Shader World.empty).2.2).1)
            (Shader.setParameter exampleDriver "u_color" (Shader.Value.Color Color.Red)
              (Shader.compile true exampleDriver (some "attribute vec4 p;")
                (some "uniform vec4 u_color;") Shader.Shader World.empty).2.1
              (Shader.compile true exampleDriver (some "attribute vec4 p;")
                (some "uniform vec4 u_color;") Shader.Shader World.empty).2.2).2).calls.drop
          (Shader.compile true exampleDriver (some "attribute vec4 p;")
            (some "uniform vec4 u_color;") Shader.Shader World.empty).2.2.calls.length) ≠ 1 := by
  refine ⟨by decide, by decide, by decide, ?_⟩
  decide

theorem toGLuint_toGLint (n : Nat) (h : n < 4294967296) : toGLuint (toGLint n) = n := by
  unfold toGLuint toGLint
  split <;> omega

theorem currentProgram_append (d : Driver) (calls : List GLCall) (c : GLCall) :
    currentProgram d (calls ++ [c]) =
      (match c with
       | GLCall.useProgram p => p
       | _ => currentProgram d calls) := by
  simp [currentProgram, List.foldl_append]

/-- C10: on a built object, for every overload other than the two texture ones and for
every name, the calls added to the transcript are, in this order: read the current
program `P`, use the program of the object, the location query if the name is not
cached, the typed uniform-set call if the location is not -1, use `P`.  So the program
of the object is the current one when the uniform-set call is made, and the current
program after the call is `P` again, whether the name resolves or not (`P` is a
`GLuint`, below 2^32). -/
theorem C10_setParameter_restores_program (d : Driver) (name : String) (value : Shader.Value)
    (s : Shader) (w : World) (hb : s.m_shaderProgram ≠ 0) (hv : value.isTexture = false)
    (hP : currentProgram d w.calls < 4294967296) :
    currentProgram d (Shader.setParameter d name value s w).2.calls = currentProgram d w.calls ∧
      ∃ q : List GLCall,
        (q = [] ∨ q = [GLCall.getUniformLocation s.m_shaderProgram name
          (d.uniformLocation (enableProgram d s w).calls s.m_shaderProgram name)]) ∧
        (Shader.setParameter d name value s w).2.calls =
          w.calls ++
            ([GLCall.getIntegerv GLenum.GL_CURRENT_PROGRAM (toGLint (currentProgram d w.calls)),
                GLCall.useProgram s.m_shaderProgram] ++ q ++
              (if (Shader.getParamLocation d name s (enableProgram d s w)).1 ≠ -1 then
                uniformCall (Shader.getParamLocation d name s (enableProgram d s w)).1 value
               else []) ++
              [GLCall.useProgram (currentProgram d w.calls)]) ∧
        currentProgram d
            (w.calls ++
              ([GLCall.getIntegerv GLenum.GL_CURRENT_PROGRAM (toGLint (currentProgram d w.calls)),
                GLCall.useProgram s.m_shaderProgram] ++ q)) = s.m_shaderProgram := by
  obtain ⟨q, hq, hcalls⟩ := setParameter_new_calls d name value s w hb hv
  rw [toGLuint_toGLint _ hP] at hcalls
  refine ⟨?_, q, hq, hcalls, ?_⟩
  · rw [hcalls, ← List.append_assoc, currentProgram_append]
  · rcases hq with hq | hq <;> rw [hq] <;>
      simp [currentProgram, List.foldl_append]

/-- Witness of C10: a float set for `u_color` on program 1 while program 0 is current. -/
theorem C10_setParameter_restores_program_witness :
    currentProgram exampleDriver World.empty.calls = 0 ∧
      (Shader.setParameter exampleDriver "u_color" (Shader.Value.float 1) builtEmpty
        World.empty).2.calls =
        [GLCall.getIntegerv GLenum.GL_CURRENT_PROGRAM 0, GLCall.useProgram 1,
          GLCall.getUniformLocation 1 "u_color" 8, GLCall.uniform1f 8 1, GLCall.useProgram 0] ∧
      currentProgram exampleDriver
        (Shader.setParameter exampleDriver "u_color" (Shader.Value.float 1) builtEmpty
          World.empty).2.calls = currentProgram exampleDriver World.empty.calls :=
  ⟨by decide, by decide,
   (C10_setParameter_restores_program exampleDriver "u_color" (Shader.Value.float 1) builtEmpty
      World.empty (by decide) rfl (by decide)).1⟩

/-- C11: the two-file `loadFromFile`, both `loadFromMemory` overloads and both
`loadFromStream` overloads return false for every object and every argument, and
return the object (handle, parameter cache, texture table, current-texture slot) and
the world (transcript of driver calls, diagnostics) as they were given. -/
theorem C11_unimplemented_loaders (s : Shader) (w : World) (a b : String) (type : ShaderType)
    (st st1 : InputStream) :
    Shader.loadFromFile_2 a b s w = (false, s, w) ∧
      Shader.loadFromMemory a type s w = (false, s, w) ∧
      Shader.loadFromMemory_2 a b s w = (false, s, w) ∧
      Shader.loadFromStream st type s w = (false, s, w) ∧
      Shader.loadFromStream_2 st st1 s w = (false, s, w) ∧
      (Op.step { EMULATION := true, d := exampleDriver, files := exampleFiles,
                 Default := Shader.Shader } (Op.loadFromMemory_2 a b) builtBefore w).1 =
        builtBefore :=
  ⟨rfl, rfl, rfl, rfl, rfl, rfl⟩

/-- C12 (the code at the failing input): with `EMULATION` defined, `bind` invokes
`bindTextures()` only on a request that is not null and has a non-zero handle, right
after making its program current.  Without `EMULATION`, `bind` invokes
`bindTextures()` through the request argument in every case: for a null request it
makes the program of `Shader::Default` current and then calls `bindTextures()` through
the null pointer, and for a request with handle 0 it makes the program of
`Shader::Default` (5 in the example) current and calls `bindTextures()` on the
request. -/
theorem C12_bindTextures_through_request :
    (∀ (Default : Shader) (shader : Option Shader) (w : World),
        (Shader.bind true Default shader w).bindTexturesLog = w.bindTexturesLog ∨
          ∃ sh, shader = some sh ∧ sh.m_shaderProgram ≠ 0 ∧
            (Shader.bind true Default shader w).calls =
              w.calls ++ [GLCall.useProgram sh.m_shaderProgram] ∧
            (Shader.bind true Default shader w).bindTexturesLog =
              w.bindTexturesLog ++ [some sh.m_shaderProgram]) ∧
      (∀ (Default : Shader) (shader : Option Shader) (w : World),
        (Shader.bind false Default shader w).bindTexturesLog =
          w.bindTexturesLog ++ [shader.map (fun r => r.m_shaderProgram)]) ∧
      (∀ (Default : Shader) (w : World),
        (Shader.bind false Default none w).calls =
            w.calls ++ [GLCall.useProgram Default.m_shaderProgram] ∧
          (Shader.bind false Default none w).bindTexturesLog = w.bindTexturesLog ++ [none]) ∧
      (Shader.bind false { Shader.Shader with m_shaderProgram := 5 } (some Shader.Shader)
          World.empty).calls = [GLCall.useProgram 5] ∧
      (Shader.bind false { Shader.Shader with m_shaderProgram := 5 } (some Shader.Shader)
          World.empty).bindTexturesLog = [some 0] := by
  refine ⟨?_, ?_, ?_, by decide, by decide⟩
  · intro Default shader w
    cases shader with
    | none => left; simp [Shader.bind, Shader.isAvailable, glUseProgram, World.call]
    | some sh =>
      by_cases h : sh.m_shaderProgram = 0
      · left; simp [Shader.bind, Shader.isAvailable, glUseProgram, World.call, h]
      · right
        exact ⟨sh, rfl, h, by
          simp [Shader.bind, Shader.isAvailable, glUseProgram, World.call, h,
            Shader.bindTextures]⟩
  · intro Default shader w
    cases shader with
    | none => simp [Shader.bind, Shader.isAvailable, glUseProgram, World.call, Shader.bindTextures]
    | some sh =>
      by_cases h : sh.m_shaderProgram = 0 <;>
        simp [Shader.bind, Shader.isAvailable, glUseProgram, World.call, h, Shader.bindTextures]
  · intro Default w
    simp [Shader.bind, Shader.isAvailable, glUseProgram, World.call, Shader.bindTextures]

/-- The objects a `compile` call creates and deletes (source-compile configuration):
it creates one program object `P`; the calls it adds delete the previous program if
there was one, each vertex-shader object they created, and `P` if the result is false;
the handle is `P` when the result is true and 0 when it is false. -/
theorem compile_step (d : Driver) (v f : Option String) (s : Shader) (w : World) :
    ∃ (P : Nat) (step : List GLCall),
      (Shader.compile true d v f s w).2.2.calls = w.calls ++ step ∧
      programsCreated step = [P] ∧
      (∀ x, deletions x step =
        (if s.m_shaderProgram ≠ 0 ∧ x = s.m_shaderProgram then 1 else 0) +
          (shadersCreated step).count x +
          (if (Shader.compile true d v f s w).1 = false ∧ x = P then 1 else 0)) ∧
      (Shader.compile true d v f s w).2.1.m_shaderProgram =
        (if (Shader.compile true d v f s w).1 = true then P else 0) := by
  refine ⟨d.createProgramObject
    (if s.m_shaderProgram ≠ 0 then glDeleteObjectARB s.m_shaderProgram w else w).calls,
    (Shader.compile true d v f s w).2.2.calls.drop w.calls.length, ?_⟩
  cases v <;> simp only [Shader.compile, Shader.isAvailable, Bool.not_true, Bool.false_eq_true,
    if_false, if_true] <;> split_ifs <;> simp only [] <;> (try split_ifs) <;>
    simp_all [glDeleteObjectARB, glCreateProgramObjectARB, glCreateShaderObjectARB, glShaderSource,
      glCompileShader, glGetObjectParameterivARB, glGetInfoLogARB, glAttachObjectARB,
      glLinkProgram, glFlush, World.call, World.report, programsCreated, shadersCreated,
      deletions, List.countP_cons, List.count_cons] <;>
    (intro x; split_ifs <;> first | rfl | omega)

theorem programsCreated_append (a b : List GLCall) :
    programsCreated (a ++ b) = programsCreated a ++ programsCreated b := by
  simp [programsCreated, List.filterMap_append]

theorem shadersCreated_append (a b : List GLCall) :
    shadersCreated (a ++ b) = shadersCreated a ++ shadersCreated b := by
  simp [shadersCreated, List.filterMap_append]

theorem deletions_append (x : Nat) (a b : List GLCall) :
    deletions x (a ++ b) = deletions x a + deletions x b := by
  simp [deletions, List.countP_append]

/-- The count of the deletions of `x` after one more build: `h` is the handle before,
`P` the program created, `b` the result, `L` the programs owned or created before. -/
theorem owns_arith (x h P : Nat) (L : List Nat) (b : Bool) (hP : P ∉ L) (hP0 : P ≠ 0)
    (hnz : 0 ∉ L) (hs : h ≠ 0 → h ∈ L) :
    (if x ∈ L ∧ x ≠ h then 1 else 0) + (if h ≠ 0 ∧ x = h then 1 else 0) +
        (if b = false ∧ x = P then 1 else 0) =
      (if x ∈ L ++ [P] ∧ x ≠ (if b = true then P else 0) then 1 else 0) := by
  by_cases hx : x ∈ L
  · have hxP : x ≠ P := fun e => hP (e ▸ hx)
    have hx0 : x ≠ 0 := fun e => hnz (e ▸ hx)
    have hnew : x ≠ (if b = true then P else 0) := by split <;> assumption
    have eD : (if x ∈ L ++ [P] ∧ x ≠ (if b = true then P else 0) then 1 else 0 : Nat) = 1 :=
      if_pos ⟨List.mem_append_left _ hx, hnew⟩
    have eC : (if b = false ∧ x = P then 1 else 0 : Nat) = 0 := if_neg (fun hc => hxP hc.2)
    by_cases hxs : x = h
    · have eA : (if x ∈ L ∧ x ≠ h then 1 else 0 : Nat) = 0 := if_neg (fun hc => hc.2 hxs)
      have eB : (if h ≠ 0 ∧ x = h then 1 else 0 : Nat) = 1 :=
        if_pos ⟨fun e => hx0 (hxs.trans e), hxs⟩
      rw [eA, eB, eC, eD]
    · have eA : (if x ∈ L ∧ x ≠ h then 1 else 0 : Nat) = 1 := if_pos ⟨hx, hxs⟩
      have eB : (if h ≠ 0 ∧ x = h then 1 else 0 : Nat) = 0 := if_neg (fun hc => hxs hc.2)
      rw [eA, eB, eC, eD]
  · have eA : (if x ∈ L ∧ x ≠ h then 1 else 0 : Nat) = 0 := if_neg (fun hc => hx hc.1)
    have hB : ¬(h ≠ 0 ∧ x = h) := by
      rintro ⟨a, c⟩
      exact hx (c ▸ hs a)
    have eB : (if h ≠ 0 ∧ x = h then 1 else 0 : Nat) = 0 := if_neg hB
    by_cases hxP : x = P
    · subst hxP
      cases b
      · have eC : (if false = false ∧ x = x then 1 else 0 : Nat) = 1 := if_pos ⟨rfl, rfl⟩
        have eD : (if x ∈ L ++ [x] ∧ x ≠ (if false = true then x else 0) then 1 else 0 : Nat)
            = 1 :=
          if_pos ⟨List.mem_append_right _ (List.mem_singleton_self x), by simpa using hP0⟩
        rw [eA, eB, eC, eD]
      · have eC : (if true = false ∧ x = x then 1 else 0 : Nat) = 0 :=
          if_neg (fun hc => Bool.noConfusion hc.1)
        have eD : (if x ∈ L ++ [x] ∧ x ≠ (if true = true then x else 0) then 1 else 0 : Nat)
            = 0 :=
          if_neg (fun hc => hc.2 (by simp))
        rw [eA, eB, eC, eD]
    · have eC : (if b = false ∧ x = P then 1 else 0 : Nat) = 0 := if_neg (fun hc => hxP hc.2)
      have eD : (if x ∈ L ++ [P] ∧ x ≠ (if b = true then P else 0) then 1 else 0 : Nat) = 0 := by
        apply if_neg
        rintro ⟨a, _⟩
        rcases List.mem_append.mp a with a | a
        · exact hx a
        · exact hxP (List.mem_singleton.mp a)
      rw [eA, eB, eC, eD]

/-- One `compile` call keeps the bookkeeping, when the program it creates is new and
not 0. -/
theorem ownsExactly_compile (d : Driver) (v f : Option String) (s : Shader) (w : World)
    (pre : List Nat) (new : List GLCall) (h : ownsExactly pre s new)
    (hnz : 0 ∉ pre ++ programsCreated new) :
    ∃ (P : Nat) (step : List GLCall),
      (Shader.compile true d v f s w).2.2.calls = w.calls ++ step ∧
      programsCreated step = [P] ∧
      (P ∉ pre ++ programsCreated new → P ≠ 0 →
        ownsExactly pre (Shader.compile true d v f s w).2.1 (new ++ step)) := by
  obtain ⟨P, step, hc, hp, hd, hh⟩ := compile_step d v f s w
  refine ⟨P, step, hc, hp, ?_⟩
  intro hP hP0
  obtain ⟨h1, h2⟩ := h
  have hs : s.m_shaderProgram ≠ 0 → s.m_shaderProgram ∈ pre ++ programsCreated new := by
    intro h0
    rcases h1 with h1 | h1
    · exact absurd h1 h0
    · exact h1
  have hL : pre ++ programsCreated (new ++ step) = (pre ++ programsCreated new) ++ [P] := by
    rw [programsCreated_append, hp, List.append_assoc]
  constructor
  · rw [hh, hL]
    split
    · exact Or.inr (List.mem_append_right _ (List.mem_singleton_self P))
    · exact Or.inl rfl
  · intro x
    have hk := owns_arith x s.m_shaderProgram P (pre ++ programsCreated new)
      (Shader.compile true d v f s w).1 hP hP0 hnz hs
    rw [hL, hh, ← hk, deletions_append, shadersCreated_append, List.count_append, h2 x, hd x]
    omega

theorem compileAll_cons (env : Env) (hE : env.EMULATION = true)
    (c : Option String × Option String) (rest : List (Option String × Option String))
    (s : Shader) (w : World) :
    compileAll env (c :: rest) s w =
      compileAll env rest (Shader.compile true env.d c.1 c.2 s w).2.1
        (Shader.compile true env.d c.1 c.2 s w).2.2 := by
  simp [compileAll, run, Op.step, hE]

/-- A sequence of `compile` calls only appends to the transcript. -/
theorem compileAll_appends (env : Env) (hE : env.EMULATION = true)
    (sources : List (Option String × Option String)) :
    ∀ (s : Shader) (w : World), ∃ more, (compileAll env sources s w).2.calls = w.calls ++ more := by
  induction sources with
  | nil => intro s w; exact ⟨[], by simp [compileAll, run]⟩
  | cons c rest ih =>
    intro s w
    obtain ⟨_, step, hc, _⟩ := compile_step env.d c.1 c.2 s w
    obtain ⟨more, hm⟩ := ih (Shader.compile true env.d c.1 c.2 s w).2.1
      (Shader.compile true env.d c.1 c.2 s w).2.2
    exact ⟨step ++ more, by rw [compileAll_cons env hE, hm, hc, List.append_assoc]⟩

/-- A sequence of `compile` calls keeps the bookkeeping, when the programs owned before
and created in the whole run are pairwise distinct and not 0. -/
theorem compileAll_owns (env : Env) (hE : env.EMULATION = true) (pre : List Nat) (w0 : World)
    (sources : List (Option String × Option String)) :
    ∀ (s : Shader) (w : World) (new : List GLCall), w.calls = w0.calls ++ new →
      ownsExactly pre s new →
      (pre ++ programsCreated
        ((compileAll env sources s w).2.calls.drop w0.calls.length)).Nodup →
      0 ∉ pre ++ programsCreated ((compileAll env sources s w).2.calls.drop w0.calls.length) →
      ownsExactly pre (compileAll env sources s w).1
        ((compileAll env sources s w).2.calls.drop w0.calls.length) := by
  induction sources with
  | nil =>
    intro s w new hw h _ _
    simp only [compileAll, run, List.map_nil, hw, List.drop_left]
    exact h
  | cons c rest ih =>
    intro s w new hw h hnd hnz
    rw [compileAll_cons env hE] at hnd hnz ⊢
    obtain ⟨more, hm⟩ := compileAll_appends env hE rest
      (Shader.compile true env.d c.1 c.2 s w).2.1 (Shader.compile true env.d c.1 c.2 s w).2.2
    have hpre : ∀ step, (Shader.compile true env.d c.1 c.2 s w).2.2.calls = w.calls ++ step →
        (compileAll env rest (Shader.compile true env.d c.1 c.2 s w).2.1
          (Shader.compile true env.d c.1 c.2 s w).2.2).2.calls.drop w0.calls.length =
          new ++ step ++ more := by
      intro step hc
      rw [hm, hc, hw, List.append_assoc, List.append_assoc, List.drop_left, List.append_assoc]
    have hnznew : 0 ∉ pre ++ programsCreated new := by
      obtain ⟨_, step, hc, _⟩ := compile_step env.d c.1 c.2 s w
      rw [hpre step hc, programsCreated_append, programsCreated_append] at hnz
      intro h0
      apply hnz
      rcases List.mem_append.mp h0 with h0 | h0
      · exact List.mem_append_left _ h0
      · exact List.mem_append_right _ (List.mem_append_left _ (List.mem_append_left _ h0))
    obtain ⟨P, step, hc, hp, hown⟩ := ownsExactly_compile env.d c.1 c.2 s w pre new h hnznew
    have hdrop := hpre step hc
    rw [hdrop, programsCreated_append, programsCreated_append, hp] at hnd hnz
    have hP : P ∉ pre ++ programsCreated new := by
      have h1 : (pre ++ programsCreated new ++ ([P] ++ programsCreated more)).Nodup := by
        simpa [List.append_assoc] using hnd
      have h2 := (List.nodup_append.mp h1).2.2
      intro hmem
      exact h2 hmem (List.mem_append_left _ (List.mem_singleton_self P))
    have hP0 : P ≠ 0 := by
      intro e
      apply hnz
      rw [← e]
      exact List.mem_append_right _
        (List.mem_append_left _ (List.mem_append_right _ (List.mem_singleton_self P)))
    have hw1 : (Shader.compile true env.d c.1 c.2 s w).2.2.calls = w0.calls ++ (new ++ step) := by
      rw [hc, hw, List.append_assoc]
    have hnd1 : (pre ++ programsCreated
        ((compileAll env rest (Shader.compile true env.d c.1 c.2 s w).2.1
          (Shader.compile true env.d c.1 c.2 s w).2.2).2.calls.drop w0.calls.length)).Nodup := by
      rw [hdrop, programsCreated_append, programsCreated_append, hp]; exact hnd
    have hnz1 : 0 ∉ pre ++ programsCreated
        ((compileAll env rest (Shader.compile true env.d c.1 c.2 s w).2.1
          (Shader.compile true env.d c.1 c.2 s w).2.2).2.calls.drop w0.calls.length) := by
      rw [hdrop, programsCreated_append, programsCreated_append, hp]; exact hnz
    exact ih _ _ (new ++ step) hw1 (hown hP hP0) hnd1 hnz1

theorem ownsExactly_start (s : Shader) : ownsExactly (ownedBefore s) s [] := by
  unfold ownsExactly ownedBefore
  by_cases h0 : s.m_shaderProgram = 0
  · simp [h0, programsCreated, shadersCreated, deletions]
  · simp [h0, programsCreated, shadersCreated, deletions]

/-- C13: take any object, any sequence of `compile` calls (source-compile
configuration) and then the destructor, and let the program objects the driver hands
out in these calls be pairwise distinct, distinct from the program the object held
before, and not 0.  Then the calls that delete an object named `x` are exactly: one
for each vertex-shader object of that name handed out, and one more if `x` is a program
the object held before or the driver created; so each such program that shares its
name with no shader object is deleted exactly once.  The destructor deletes nothing
when the handle is 0, and every `compile` call deletes the program held before it and,
when it fails, the program it created. -/
theorem C13_programs_deleted_once (env : Env) (sources : List (Option String × Option String))
    (s : Shader) (w0 : World) (hE : env.EMULATION = true)
    (hdistinct : (ownedBefore s ++ programsCreated (lifeCalls env sources s w0)).Nodup)
    (hnz : 0 ∉ programsCreated (lifeCalls env sources s w0)) :
    (∀ x, deletions x (lifeCalls env sources s w0) =
        (shadersCreated (lifeCalls env sources s w0)).count x +
          (if x ∈ ownedBefore s ++ programsCreated (lifeCalls env sources s w0) then 1 else 0)) ∧
      (∀ p ∈ ownedBefore s ++ programsCreated (lifeCalls env sources s w0),
        p ∉ shadersCreated (lifeCalls env sources s w0) →
          deletions p (lifeCalls env sources s w0) = 1) ∧
      (∀ (t : Shader) (w : World), Shader.destructor { t with m_shaderProgram := 0 } w = w) ∧
      (∀ (v f : Option String) (t : Shader) (w : World),
        ∃ (P : Nat) (step : List GLCall),
          (Shader.compile true env.d v f t w).2.2.calls = w.calls ++ step ∧
          programsCreated step = [P] ∧
          (∀ x, deletions x step =
            (if t.m_shaderProgram ≠ 0 ∧ x = t.m_shaderProgram then 1 else 0) +
              (shadersCreated step).count x +
              (if (Shader.compile true env.d v f t w).1 = false ∧ x = P then 1 else 0)) ∧
          (Shader.compile true env.d v f t w).2.1.m_shaderProgram =
            (if (Shader.compile true env.d v f t w).1 = true then P else 0)) := by
  obtain ⟨more, hm⟩ := compileAll_appends env hE sources s w0
  generalize hr : compileAll env sources s w0 = r at hm
  have hlife : lifeCalls env sources s w0 =
      more ++ (if r.1.m_shaderProgram ≠ 0 then [GLCall.deleteProgram r.1.m_shaderProgram]
        else []) := by
    unfold lifeCalls Shader.destructor
    rw [hr]
    split
    · simp [glDeleteProgram, World.call, hm]
    · simp [hm]
  have hpc : programsCreated (lifeCalls env sources s w0) = programsCreated more := by
    rw [hlife, programsCreated_append]
    split <;> simp [programsCreated]
  have hsc : shadersCreated (lifeCalls env sources s w0) = shadersCreated more := by
    rw [hlife, shadersCreated_append]
    split <;> simp [shadersCreated]
  have hdrop : (compileAll env sources s w0).2.calls.drop w0.calls.length = more := by
    rw [hr, hm, List.drop_left]
  have hz : 0 ∉ ownedBefore s ++ programsCreated more := by
    intro h0
    rcases List.mem_append.mp h0 with h0 | h0
    · unfold ownedBefore at h0
      split at h0
      · cases h0
      · rename_i hne
        exact hne (List.mem_singleton.mp h0).symm
    · exact hnz (hpc ▸ h0)
  have hown := compileAll_owns env hE (ownedBefore s) w0 sources s w0 [] (by simp)
    (ownsExactly_start s) (by rw [hdrop, ← hpc]; exact hdistinct) (by rw [hdrop]; exact hz)
  rw [hdrop, hr] at hown
  obtain ⟨h1, h2⟩ := hown
  have hall : ∀ x, deletions x (lifeCalls env sources s w0) =
      (shadersCreated (lifeCalls env sources s w0)).count x +
        (if x ∈ ownedBefore s ++ programsCreated (lifeCalls env sources s w0) then 1 else 0) := by
    intro x
    rw [hpc, hsc, hlife, deletions_append, h2 x]
    by_cases hx : x ∈ ownedBefore s ++ programsCreated more
    · have hx0 : x ≠ 0 := fun e => hz (e ▸ hx)
      rw [if_pos hx]
      by_cases hxh : x = r.1.m_shaderProgram
      · have hne : r.1.m_shaderProgram ≠ 0 := fun e => hx0 (hxh.trans e)
        rw [if_neg (fun hc => hc.2 hxh), if_pos hne]
        simp [deletions, hxh]
      · rw [if_pos ⟨hx, hxh⟩]
        split
        · have : r.1.m_shaderProgram ≠ x := fun e => hxh e.symm
          simp [deletions, this]
        · simp [deletions]
    · rw [if_neg hx, if_neg (fun hc => hx hc.1)]
      split
      · rename_i hne
        have : r.1.m_shaderProgram ≠ x := by
          intro e
          rcases h1 with h1 | h1
          · exact hne h1
          · exact hx (e ▸ h1)
        simp [deletions, this]
      · simp [deletions]
  refine ⟨hall, ?_, ?_, fun v f t w => compile_step env.d v f t w⟩
  · intro p hp hps
    rw [hall p, if_pos hp, List.count_eq_zero_of_not_mem hps]
  · intro t w
    simp [Shader.destructor]

/-- Witness of C13: the example driver; a build that fails at the vertex compile
(program 1), a build that succeeds (program 9), a build without sources that succeeds
and replaces it (program 20), then the destructor. -/
theorem C13_programs_deleted_once_witness :
    programsCreated
        (lifeCalls { EMULATION := true, d := exampleDriver, files := exampleFiles,
                     Default := Shader.Shader }
          [(some "garbage", none), (some "attribute vec4 p;", none), (none, none)]
          Shader.Shader World.empty) = [1, 9, 20] ∧
      deletions 9
        (lifeCalls { EMULATION := true, d := exampleDriver, files := exampleFiles,
                     Default := Shader.Shader }
          [(some "garbage", none), (some "attribute vec4 p;", none), (none, none)]
          Shader.Shader World.empty) = 1 := by
  have h := C13_programs_deleted_once
    { EMULATION := true, d := exampleDriver, files := exampleFiles, Default := Shader.Shader }
    [(some "garbage", none), (some "attribute vec4 p;", none), (none, none)]
    Shader.Shader World.empty rfl (by decide) (by decide)
  exact ⟨by decide, h.2.1 9 (by decide) (by decide)⟩

/-- C14 (the code at the failing input): a file with at least one byte replaces the
buffer by its content and one zero byte, and a file that cannot be opened leaves the
buffer as it was; but an empty file leaves the earlier content in the buffer and
appends one more zero byte to it.  So `loadFromFile` of a well-formed vertex source
followed by `loadFromFile` of an empty file hands the text of the first file to the
driver a second time. -/
theorem C14_empty_file_keeps_buffer :
    (∀ (name : String) (a : Char) (c buffer : List Char),
        getFileContents (fun _ => some (a :: c)) name buffer =
          (true, (a :: c) ++ [Char.ofNat 0])) ∧
      (∀ (name : String) (buffer : List Char),
        getFileContents (fun _ => none) name buffer = (false, buffer)) ∧
      (∀ (name : String) (buffer : List Char),
        getFileContents (fun _ => some []) name buffer = (true, buffer ++ [Char.ofNat 0])) ∧
      getFileContents exampleFiles "../res/glsl/empty.glsl" [Char.ofNat 97, Char.ofNat 0] =
        (true, [Char.ofNat 97, Char.ofNat 0, Char.ofNat 0]) ∧
      (Shader.loadFromFile true exampleDriver exampleFiles "empty" ShaderType.Vertex
        (Shader.loadFromFile true exampleDriver exampleFiles "good" ShaderType.Vertex
          Shader.Shader World.empty).2.1
        (Shader.loadFromFile true exampleDriver exampleFiles "good" ShaderType.Vertex
          Shader.Shader World.empty).2.2).2.1.m_shaderData =
        "attribute vec4 p;".data ++ [Char.ofNat 0, Char.ofNat 0] ∧
      sourcesCompiled
        (Shader.loadFromFile true exampleDriver exampleFiles "empty" ShaderType.Vertex
          (Shader.loadFromFile true exampleDriver exampleFiles "good" ShaderType.Vertex
            Shader.Shader World.empty).2.1
          (Shader.loadFromFile true exampleDriver exampleFiles "good" ShaderType.Vertex
            Shader.Shader World.empty).2.2).2.2.calls =
        ["attribute vec4 p;", "attribute vec4 p;"] := by
  refine ⟨?_, ?_, ?_, by decide, by decide, by decide⟩
  · intro name a c buffer
    simp [getFileContents]
  · intro name buffer
    simp [getFileContents]
  · intro name buffer
    simp [getFileContents]

end cpp3ds
